import Mathlib

/-!
# corosync-quorumtool

A shallow embedding of `tools/corosync-quorumtool.c` and the properties of it
that its specification states.

The tool is single threaded.  Every function of the C file becomes a function
on an explicit `State` (the file's static variables, the text written so far
and the list of library calls made so far).  The daemon and libc are not part
of the file: what a library call answers is read from an `Env`, which gives an
arbitrary answer to the k-th call of the run, so every behaviour of the
outside world is covered.  The two wait loops take a bound on the number of
times the loop condition is evaluated; `none` means the loop is still running
when the bound is reached.
-/

namespace Quorumtool

/-! ## Constants that come from headers -/

/-- Constants and macros that the C file uses and that are declared in headers
outside of it (`corosync/corotypes.h`, `corosync/confdb.h`,
`corosync/votequorum.h`, `corosync/totem/totem.h`, `config.h`, and the system's
socket headers).  They are parameters of every definition. -/
structure Headers where
  CS_OK : Int
  CS_TRACK_CURRENT : Nat
  CS_DISPATCH_ONE : Nat
  OBJECT_PARENT_HANDLE : Nat
  VOTEQUORUM_NODEID_US : Nat
  VOTEQUORUM_INFO_FLAG_HASSTATE : Nat
  VOTEQUORUM_INFO_FLAG_DISALLOWED : Nat
  VOTEQUORUM_INFO_FLAG_TWONODE : Nat
  VOTEQUORUM_INFO_FLAG_QUORATE : Nat
  INTERFACE_MAX : Nat
  VERSION : String
  AF_INET6 : Nat
  NI_NUMERICHOST : Nat
  sizeof_sockaddr_in6 : Nat
  sizeof_sockaddr_in : Nat

/-- The values these constants have in corosync's public headers and on Linux:
`cs_error_t` starts at `CS_OK = 1` and all its members are positive (that
`CS_OK` is not 0 also shows in `set_votes`, which returns `err==CS_OK?0:err`).
`VERSION` is the version text of the build, here a sample. -/
def corosyncHeaders : Headers where
  CS_OK := 1
  CS_TRACK_CURRENT := 1
  CS_DISPATCH_ONE := 1
  OBJECT_PARENT_HANDLE := 0xFFFFFFFF00000000
  VOTEQUORUM_NODEID_US := 0
  VOTEQUORUM_INFO_FLAG_HASSTATE := 1
  VOTEQUORUM_INFO_FLAG_DISALLOWED := 2
  VOTEQUORUM_INFO_FLAG_TWONODE := 4
  VOTEQUORUM_INFO_FLAG_QUORATE := 8
  INTERFACE_MAX := 2
  VERSION := "1.99.0"
  AF_INET6 := 10
  NI_NUMERICHOST := 1
  sizeof_sockaddr_in6 := 28
  sizeof_sockaddr_in := 16

/-- C's `EXIT_SUCCESS`. -/
def EXIT_SUCCESS : Int := 0

/-- C's `EXIT_FAILURE`. -/
def EXIT_FAILURE : Int := 1

/-! ## Data -/

inductive nodeid_format_t where
  | NODEID_FORMAT_DECIMAL
  | NODEID_FORMAT_HEX
  deriving DecidableEq

inductive name_format_t where
  | ADDRESS_FORMAT_NAME
  | ADDRESS_FORMAT_IP
  deriving DecidableEq

inductive command_t where
  | CMD_UNKNOWN
  | CMD_SHOWNODES
  | CMD_SHOWSTATUS
  | CMD_SETVOTES
  | CMD_SETEXPECTED
  deriving DecidableEq

open nodeid_format_t name_format_t command_t

/-- The arguments with which the library invokes `quorum_notification_fn`;
`view_list_entries` is the length of `view_list`. -/
structure Notification where
  quorate : Nat
  ring_id : Nat
  view_list : List Nat
  deriving DecidableEq

/-- The fields of `struct votequorum_info` that the tool reads. -/
structure votequorum_info where
  node_votes : Int
  node_expected_votes : Int
  highest_expected : Int
  total_votes : Int
  quorum : Int
  flags : Nat
  deriving DecidableEq

/-- First address of a node as `corosync_cfg_get_node_addrs` stores it:
the address family and the remaining bytes. -/
structure Addr where
  ss_family : Nat
  bytes : Nat
  deriving DecidableEq

/-- A call of a function that is not defined in the C file, with the
arguments the tool passes (callback tables and buffer sizes left out). -/
inductive Call where
  | confdb_initialize
  | confdb_finalize (handle : Nat)
  | confdb_object_find_start (handle parent : Nat)
  | confdb_object_find (handle parent : Nat) (name : String)
  | confdb_key_get (handle parent : Nat) (key : String)
  | quorum_initialize
  | quorum_finalize (handle : Nat)
  | quorum_getquorate (handle : Nat)
  | quorum_trackstart (handle flags : Nat)
  | quorum_trackstop (handle : Nat)
  | quorum_dispatch (handle flags : Nat)
  | corosync_cfg_initialize
  | corosync_cfg_finalize (handle : Nat)
  | corosync_cfg_get_node_addrs (handle nodeid max : Nat)
  | votequorum_initialize
  | votequorum_finalize (handle : Nat)
  | votequorum_setvotes (handle nodeid : Nat) (votes : Int)
  | votequorum_setexpected (handle : Nat) (expected_votes : Int)
  | votequorum_getinfo (handle nodeid : Nat)
  | getnameinfo (addr : Addr) (addrlen flags : Nat)
  deriving DecidableEq

/-- What one library call answers: the value it returns and whatever it
stores through its out-pointers.  A call reads the fields that concern it.
An out-pointer is always stored to with the value given here (a library that
leaves it alone on failure is the answer that repeats the old value, and a
local variable the library did not initialise holds an arbitrary value). -/
structure Resp where
  status : Int
  handle : Nat
  quorate : Int
  notif : Option Notification
  value : String
  info : votequorum_info
  addr : Addr
  host : String

/-- The world outside the C file: the answer to the k-th library call of the
run, libc's `strtol` (the `long` it returns and whether `endptr == optarg`),
and whether the compiler evaluates the arguments of a call right to left. -/
structure Env where
  resp : Nat → Resp
  strtol : String → Int × Bool
  args_right_to_left : Bool

/-- The static variables of the C file (zero at program start), the library
calls made so far (oldest first) and the chunks written to stdout and stderr
(one per `printf` or `fprintf` call). -/
structure State where
  confdb_handle : Nat := 0
  q_handle : Nat := 0
  v_handle : Nat := 0
  c_handle : Nat := 0
  g_quorate : Nat := 0
  g_ring_id : Nat := 0
  g_view_list_entries : Nat := 0
  g_view_list : List Nat := []
  g_called : Nat := 0
  trace : List Call := []
  out : List String := []
  err : List String := []
  deriving DecidableEq

/-- Answer to the library call that the state is about to make. -/
def resp (env : Env) (s : State) : Resp := env.resp s.trace.length

/-- Record a library call. -/
def log (c : Call) (s : State) : State := { s with trace := s.trace ++ [c] }

/-- One `printf` call. -/
def printf (x : String) (s : State) : State := { s with out := s.out ++ [x] }

/-- One `fprintf(stderr, ...)` call. -/
def eprintf (x : String) (s : State) : State := { s with err := s.err ++ [x] }

/-! ## Conversions and formatting (C semantics) -/

/-- Conversion of a `long` or `uint32_t` to `int` (two's complement). -/
def to_int (x : Int) : Int := (x + 2 ^ 31) % 2 ^ 32 - 2 ^ 31

/-- Conversion of a `long` to `uint32_t`. -/
def to_uint32 (x : Int) : Nat := (x % 2 ^ 32).toNat

/-- Conversion `%d`. -/
def fmt_d : Int → String
  | Int.ofNat m => Nat.repr m
  | Int.negSucc m => "-" ++ Nat.repr (m + 1)

/-- Conversion `%3d`. -/
def fmt_3d (i : Int) : String := String.mk (List.leftpad 3 ' ' (fmt_d i).data)

/-- Conversion `%4u`. -/
def fmt_4u (n : Nat) : String := String.mk (List.leftpad 4 ' ' (Nat.toDigits 10 n))

/-- Conversion `%04x`. -/
def fmt_04x (n : Nat) : String := String.mk (List.leftpad 4 '0' (Nat.toDigits 16 n))

/-- Conversion `PRIu64`. -/
def fmt_u64 (n : Nat) : String := Nat.repr n

/-! ## The functions of the C file -/

def show_usage (name : String) (s : State) : State :=
  let s := printf "usage: \n" s
  let s := printf (name ++ " <options>\n") s
  let s := printf "\n" s
  let s := printf "  options:\n" s
  let s := printf "\n" s
  let s := printf "  -s             show quorum status\n" s
  let s := printf "  -l             list nodes\n" s
  let s := printf "  -v <votes>     change the number of votes for a node *\n" s
  let s := printf "  -n <nodeid>    optional nodeid of node for -v\n" s
  let s := printf "  -e <expected>  change expected votes for the cluster *\n" s
  let s := printf "  -H             show nodeids in hexadecimal rather than decimal\n" s
  let s := printf "  -i             show node IP addresses instead of the resolved name\n" s
  let s := printf "  -h             show this help text\n" s
  let s := printf "\n" s
  let s := printf "  * Starred items only work if votequorum is the quorum provider for corosync\n" s
  printf "\n" s

/-- Content of `quorum_type` after lines 185-190: the stored bytes `value`
(`namelen` of them) are cut at 255, terminated, and copied with
`strncpy(quorum_type, buf, quorum_type_len - 1)` into the zeroed buffer; read
back as a C string. -/
def copy_quorum_type (value : String) (quorum_type_len : Nat) : String :=
  let namelen := if value.length ≥ 256 then 255 else value.length
  let buf := (value.data.take namelen).takeWhile (fun c => c ≠ Char.ofNat 0)
  String.mk (buf.take (quorum_type_len - 1))

/-- Function `get_quorum_type`: the returned int and the content of the
caller's buffer afterwards.  The buffer is never null in this program. -/
def get_quorum_type (hdr : Headers) (env : Env) (quorum_type_len : Nat) (s : State) :
    (Int × String) × State :=
  if quorum_type_len ≤ 0 then ((-1, ""), s) else
  let r1 := resp env s
  let s1 := log (.confdb_object_find_start s.confdb_handle hdr.OBJECT_PARENT_HANDLE) s
  if r1.status ≠ hdr.CS_OK then ((r1.status, ""), s1) else
  let r2 := resp env s1
  let s2 := log (.confdb_object_find s1.confdb_handle hdr.OBJECT_PARENT_HANDLE "quorum") s1
  if r2.status ≠ hdr.CS_OK then ((r2.status, ""), s2) else
  let r3 := resp env s2
  let s3 := log (.confdb_key_get s2.confdb_handle r2.handle "provider") s2
  if r3.status ≠ hdr.CS_OK then ((r3.status, ""), s3) else
  ((r3.status, copy_quorum_type r3.value quorum_type_len), s3)

def using_votequorum (hdr : Headers) (env : Env) (s : State) : Int × State :=
  let g := get_quorum_type hdr env 256 s
  if g.1.1 ≠ 0 then (-1, g.2)
  else if g.1.2 = "corosync_votequorum" then (1, g.2)
  else (0, g.2)

def set_votes (hdr : Headers) (env : Env) (nodeid : Nat) (votes : Int) (s : State) :
    Int × State :=
  let r1 := resp env s
  let s1 := { log Call.votequorum_initialize s with v_handle := r1.handle }
  if r1.status ≠ hdr.CS_OK then
    (r1.status, eprintf ("votequorum_initialize FAILED: " ++ fmt_d r1.status ++
      ", this is probably a configuration error\n") s1)
  else
  let r2 := resp env s1
  let s2 := log (.votequorum_setvotes s1.v_handle nodeid votes) s1
  let s3 := if r2.status ≠ hdr.CS_OK then
    eprintf ("set votes FAILED: " ++ fmt_d r2.status ++ "\n") s2 else s2
  (if r2.status = hdr.CS_OK then 0 else r2.status, s3)

def set_expected (hdr : Headers) (env : Env) (expected_votes : Int) (s : State) :
    Int × State :=
  let r1 := resp env s
  let s1 := { log Call.votequorum_initialize s with v_handle := r1.handle }
  if r1.status ≠ hdr.CS_OK then
    (r1.status, eprintf ("votequorum_initialize FAILED: " ++ fmt_d r1.status ++
      ", this is probably a configuration error\n") s1)
  else
  let r2 := resp env s1
  let s2 := log (.votequorum_setexpected s1.v_handle expected_votes) s1
  let s3 := if r2.status ≠ hdr.CS_OK then
    eprintf ("set expected votes FAILED: " ++ fmt_d r2.status ++ "\n") s2 else s2
  (if r2.status = hdr.CS_OK then 0 else r2.status, s3)

def get_votes (hdr : Headers) (env : Env) (nodeid : Nat) (s : State) : Int × State :=
  let r := resp env s
  let s1 := log (.votequorum_getinfo s.v_handle nodeid) s
  if r.status = hdr.CS_OK then (r.info.node_votes, s1) else (-1, s1)

def node_name (hdr : Headers) (env : Env) (nodeid : Nat) (name_format : name_format_t)
    (s : State) : String × State :=
  let r := resp env s
  let s1 := log (.corosync_cfg_get_node_addrs s.c_handle nodeid hdr.INTERFACE_MAX) s
  if r.status = hdr.CS_OK then
    let addrlen := if r.addr.ss_family = hdr.AF_INET6 then hdr.sizeof_sockaddr_in6
      else hdr.sizeof_sockaddr_in
    let r2 := resp env s1
    let s2 := log (.getnameinfo r.addr addrlen
      (if name_format = ADDRESS_FORMAT_IP then hdr.NI_NUMERICHOST else 0)) s1
    if r2.status = 0 then (r2.host, s2) else ("", s2)
  else ("", s1)

/-- Function `quorum_notification_fn`; the view list is copied (allocation is
taken to succeed: lists are unbounded here). -/
def quorum_notification_fn (v : Notification) (s : State) : State :=
  { s with
    g_called := 1
    g_quorate := v.quorate
    g_ring_id := v.ring_id
    g_view_list_entries := v.view_list.length
    g_view_list := v.view_list }

/-- One `quorum_dispatch(q_handle, CS_DISPATCH_ONE)` call: the call is made,
the library may invoke the registered callback, and the status comes back. -/
def quorum_dispatch (hdr : Headers) (env : Env) (s : State) : Int × State :=
  let r := resp env s
  let s1 := log (.quorum_dispatch s.q_handle hdr.CS_DISPATCH_ONE) s
  match r.notif with
  | some v => (r.status, quorum_notification_fn v s1)
  | none => (r.status, s1)

/-- The loop of `show_status`, lines 336-341; the first argument bounds the
number of evaluations of the loop condition. -/
def show_status_wait (hdr : Headers) (env : Env) : Nat → Int → State → Option (Int × State)
  | 0, _, _ => none
  | fuel + 1, err, s =>
    if s.g_called = 0 ∧ err = hdr.CS_OK then
      let d := quorum_dispatch hdr env s
      let s1 := if d.1 ≠ hdr.CS_OK then
        eprintf ("quorum_dispatch FAILED: " ++ fmt_d d.1 ++ "\n") d.2 else d.2
      show_status_wait hdr env fuel d.1 s1
    else some (err, s)

/-- The vote block that `show_status` prints after a successful
`votequorum_getinfo`, lines 368-378. -/
def show_status_info (hdr : Headers) (info : votequorum_info) (s : State) : State :=
  let s := printf ("Node votes:       " ++ fmt_d info.node_votes ++ "\n") s
  let s := printf ("Expected votes:   " ++ fmt_d info.node_expected_votes ++ "\n") s
  let s := printf ("Highest expected: " ++ fmt_d info.highest_expected ++ "\n") s
  let s := printf ("Total votes:      " ++ fmt_d info.total_votes ++ "\n") s
  let s := printf ("Quorum:           " ++ fmt_d info.quorum ++ " " ++
    (if info.flags &&& hdr.VOTEQUORUM_INFO_FLAG_QUORATE ≠ 0 then " " else "Activity blocked")
    ++ "\n") s
  let s := printf "Flags:            " s
  let s := if info.flags &&& hdr.VOTEQUORUM_INFO_FLAG_HASSTATE ≠ 0 then
    printf "HasState " s else s
  let s := if info.flags &&& hdr.VOTEQUORUM_INFO_FLAG_DISALLOWED ≠ 0 then
    printf "DisallowedNodes " s else s
  let s := if info.flags &&& hdr.VOTEQUORUM_INFO_FLAG_TWONODE ≠ 0 then
    printf "2Node " s else s
  let s := if info.flags &&& hdr.VOTEQUORUM_INFO_FLAG_QUORATE ≠ 0 then
    printf "Quorate " s else s
  printf "\n" s

/-- The part of `show_status` from the label `quorum_err` on, lines 347-387,
entered with the current values of the locals `is_quorate` and `err`. -/
def show_status_quorum_err (hdr : Headers) (env : Env) (is_quorate err : Int) (s : State) :
    Int × State :=
  if err < 0 then (err, s) else
  let g1 := get_quorum_type hdr env 256 s
  let s1 := printf ("Version:          " ++ hdr.VERSION ++ "\n") g1.2
  let s2 := printf ("Nodes:            " ++ fmt_d (to_int s1.g_view_list_entries) ++ "\n") s1
  let s3 := printf ("Ring ID:          " ++ fmt_u64 s2.g_ring_id ++ "\n") s2
  let g2 := get_quorum_type hdr env 256 s3
  let quorum_type := if g2.1.1 ≠ 0 then "Not configured" else g2.1.2
  let s4 := printf ("Quorum type:      " ++ quorum_type ++ "\n") g2.2
  let s5 := printf ("Quorate:          " ++ (if is_quorate ≠ 0 then "Yes" else "No") ++ "\n") s4
  if s5.v_handle = 0 then (is_quorate, s5) else
  let r := resp env s5
  let s6 := log (.votequorum_getinfo s5.v_handle 0) s5
  let s7 := if r.status = hdr.CS_OK then show_status_info hdr r.info s6
    else eprintf ("votequorum_getinfo FAILED: " ++ fmt_d r.status ++ "\n") s6
  if r.status ≠ hdr.CS_OK then (r.status, s7) else (is_quorate, s7)

def show_status (hdr : Headers) (env : Env) (fuel : Nat) (s : State) : Option (Int × State) :=
  let r1 := resp env s
  let s1 := log (.quorum_getquorate s.q_handle) s
  let is_quorate := r1.quorate
  if r1.status ≠ hdr.CS_OK then
    some (show_status_quorum_err hdr env is_quorate r1.status
      (eprintf ("quorum_getquorate FAILED: " ++ fmt_d r1.status ++ "\n") s1))
  else
  let r2 := resp env s1
  let s2 := log (.quorum_trackstart s1.q_handle hdr.CS_TRACK_CURRENT) s1
  if r2.status ≠ hdr.CS_OK then
    some (show_status_quorum_err hdr env is_quorate r2.status
      (eprintf ("quorum_trackstart FAILED: " ++ fmt_d r2.status ++ "\n") s2))
  else
  match show_status_wait hdr env fuel r2.status { s2 with g_called := 0 } with
  | none => none
  | some w =>
    let r3 := resp env w.2
    let s3 := log (.quorum_trackstop w.2.q_handle) w.2
    let s4 := if r3.status ≠ hdr.CS_OK then
      eprintf ("quorum_trackstop FAILED: " ++ fmt_d w.1 ++ "\n") s3 else s3
    some (show_status_quorum_err hdr env is_quorate w.1 s4)

/-- The loop of `show_nodes`, lines 402-404; the first argument bounds the
number of evaluations of the loop condition. -/
def show_nodes_wait (hdr : Headers) (env : Env) : Nat → State → Option State
  | 0, _ => none
  | fuel + 1, s =>
    if s.g_called = 0 then show_nodes_wait hdr env fuel (quorum_dispatch hdr env s).2
    else some s

/-- The node-id field of a row of `show_nodes`, lines 423-427. -/
def nodeid_field (nodeid_format : nodeid_format_t) (nodeid : Nat) : String :=
  if nodeid_format = NODEID_FORMAT_DECIMAL then fmt_4u nodeid ++ "   "
  else "0x" ++ fmt_04x nodeid ++ "   "

/-- The rest of a row, lines 428-432, given what `get_votes` and `node_name`
returned. -/
def row_rest (with_votes : Bool) (votes : Int) (name : String) : String :=
  if with_votes then fmt_3d votes ++ "  " ++ name ++ "\n" else name ++ "\n"

/-- Body of the `for` loop of `show_nodes`, lines 423-432, for one entry of
`g_view_list`. -/
def show_nodes_row (hdr : Headers) (env : Env) (nodeid_format : nodeid_format_t)
    (name_format : name_format_t) (nodeid : Nat) (s : State) : State :=
  let s1 := printf (nodeid_field nodeid_format nodeid) s
  if s1.v_handle ≠ 0 then
    if env.args_right_to_left then
      let nm := node_name hdr env nodeid name_format s1
      let v := get_votes hdr env nodeid nm.2
      printf (row_rest true v.1 nm.1) v.2
    else
      let v := get_votes hdr env nodeid s1
      let nm := node_name hdr env nodeid name_format v.2
      printf (row_rest true v.1 nm.1) nm.2
  else
    let nm := node_name hdr env nodeid name_format s1
    printf (row_rest false 0 nm.1) nm.2

/-- The `for` loop of `show_nodes` over the entries of the view list. -/
def show_nodes_rows (hdr : Headers) (env : Env) (nodeid_format : nodeid_format_t)
    (name_format : name_format_t) : List Nat → State → State
  | [], s => s
  | n :: ns, s =>
    show_nodes_rows hdr env nodeid_format name_format ns
      (show_nodes_row hdr env nodeid_format name_format n s)

def show_nodes (hdr : Headers) (env : Env) (fuel : Nat) (nodeid_format : nodeid_format_t)
    (name_format : name_format_t) (s : State) : Option (Int × State) :=
  let r1 := resp env s
  let s1 := log (.quorum_trackstart s.q_handle hdr.CS_TRACK_CURRENT) s
  if r1.status ≠ hdr.CS_OK then
    some (EXIT_FAILURE, eprintf ("quorum_trackstart FAILED: " ++ fmt_d r1.status ++ "\n") s1)
  else
  match show_nodes_wait hdr env fuel { s1 with g_called := 0 } with
  | none => none
  | some s2 =>
    let s3 := { log (.quorum_finalize s2.q_handle) s2 with q_handle := 0 }
    let r4 := resp env s3
    let s4 := { log Call.corosync_cfg_initialize s3 with c_handle := r4.handle }
    if r4.status ≠ hdr.CS_OK then
      some (EXIT_FAILURE, { eprintf "Cannot initialise CFG service\n" s4 with c_handle := 0 })
    else
    let s5 := if s4.v_handle ≠ 0 then printf "Nodeid     Votes  Name\n" s4
      else printf "Nodeid     Name\n" s4
    some (EXIT_SUCCESS,
      show_nodes_rows hdr env nodeid_format name_format s5.g_view_list s5)

def init_all (hdr : Headers) (env : Env) (s : State) : Int × State :=
  let s := { s with confdb_handle := 0, q_handle := 0, v_handle := 0, c_handle := 0 }
  let r1 := resp env s
  let s1 := { log Call.confdb_initialize s with confdb_handle := r1.handle }
  if r1.status ≠ hdr.CS_OK then
    (-1, { eprintf "Cannot initialize CONFDB service\n" s1 with confdb_handle := 0 })
  else
  let r2 := resp env s1
  let s2 := { log Call.quorum_initialize s1 with q_handle := r2.handle }
  if r2.status ≠ hdr.CS_OK then
    (-1, { eprintf "Cannot initialize QUORUM service\n" s2 with q_handle := 0 })
  else
  let r3 := resp env s2
  let s3 := { log Call.corosync_cfg_initialize s2 with c_handle := r3.handle }
  if r3.status ≠ hdr.CS_OK then
    (-1, { eprintf "Cannot initialise CFG service\n" s3 with c_handle := 0 })
  else
  let u := using_votequorum hdr env s3
  if u.1 ≤ 0 then (0, u.2) else
  let r4 := resp env u.2
  let s4 := { log Call.votequorum_initialize u.2 with v_handle := r4.handle }
  if r4.status ≠ hdr.CS_OK then
    (-1, { eprintf "Cannot initialise VOTEQUORUM service\n" s4 with v_handle := 0 })
  else (0, s4)

def close_all (s : State) : State :=
  let s := if s.confdb_handle ≠ 0 then log (.confdb_finalize s.confdb_handle) s else s
  let s := if s.q_handle ≠ 0 then log (.quorum_finalize s.q_handle) s else s
  let s := if s.c_handle ≠ 0 then log (.corosync_cfg_finalize s.c_handle) s else s
  if s.v_handle ≠ 0 then log (.votequorum_finalize s.v_handle) s else s

/-- The local variables of `main` that the option loop changes. -/
structure Locals where
  votes : Int
  nodeid : Nat
  nodeid_format : nodeid_format_t
  address_format : name_format_t
  command_opt : command_t
  deriving DecidableEq

/-- Result of handling options: go on with the locals and the state, or the
process has ended through `exit(code)`. -/
inductive Step where
  | next (l : Locals) (s : State)
  | exit (code : Int) (s : State)
  deriving DecidableEq

/-- Body of the `switch (opt)` of `main`, lines 521-571, for one option
character returned by `getopt` together with `optarg`. -/
def main_option (hdr : Headers) (env : Env) (opt : Char) (optarg : String) (l : Locals)
    (s : State) : Step :=
  if opt = 's' then .next { l with command_opt := CMD_SHOWSTATUS } s
  else if opt = 'i' then .next { l with address_format := ADDRESS_FORMAT_IP } s
  else if opt = 'H' then .next { l with nodeid_format := NODEID_FORMAT_HEX } s
  else if opt = 'l' then .next { l with command_opt := CMD_SHOWNODES } s
  else if opt = 'e' then
    let u := using_votequorum hdr env s
    if u.1 > 0 then
      let p := env.strtol optarg
      let votes := to_int p.1
      if (votes = 0 ∧ p.2 = true) ∨ votes ≤ 0 then
        .next { l with votes := votes }
          (eprintf "New expected votes value was not valid, try a positive number\n" u.2)
      else .next { l with votes := votes, command_opt := CMD_SETEXPECTED } u.2
    else
      .exit 2 (eprintf "You cannot change expected votes, corosync is not using votequorum\n" u.2)
  else if opt = 'n' then
    let p := env.strtol optarg
    let nodeid := to_uint32 p.1
    if (nodeid = 0 ∧ p.2 = true) ∨ nodeid ≤ 0 then
      .next { l with nodeid := nodeid }
        (eprintf "The nodeid was not valid, try a positive number\n" s)
    else .next { l with nodeid := nodeid } s
  else if opt = 'v' then
    let u := using_votequorum hdr env s
    if u.1 > 0 then
      let p := env.strtol optarg
      let votes := to_int p.1
      if (votes = 0 ∧ p.2 = true) ∨ votes < 0 then
        .next { l with votes := votes }
          (eprintf "New votes value was not valid, try a positive number or zero\n" u.2)
      else .next { l with votes := votes, command_opt := CMD_SETVOTES } u.2
    else
      .exit 2 (eprintf "You cannot change node votes, corosync is not using votequorum\n" u.2)
  else .next l s

/-- The `while` loop of `main` over the options that `getopt` returns, in
order, each with its `optarg`. -/
def main_options (hdr : Headers) (env : Env) : List (Char × String) → Locals → State → Step
  | [], l, s => .next l s
  | o :: os, l, s =>
    match main_option hdr env o.1 o.2 l s with
    | .next l1 s1 => main_options hdr env os l1 s1
    | .exit code s1 => .exit code s1

/-- The locals of `main` as declared, lines 503-508. -/
def main_locals (hdr : Headers) : Locals :=
  { votes := 0
    nodeid := hdr.VOTEQUORUM_NODEID_US
    nodeid_format := NODEID_FORMAT_DECIMAL
    address_format := ADDRESS_FORMAT_NAME
    command_opt := CMD_UNKNOWN }

/-- Function `main`: `argc`, `argv[0]` and the sequence of options `getopt`
yields for `argv`.  The result is the exit status of the process with the final
state, or `none` while a wait loop is still running after `fuel` evaluations
of its condition. -/
def main (hdr : Headers) (env : Env) (fuel : Nat) (argc : Nat) (argv0 : String)
    (opts : List (Char × String)) : Option (Int × State) :=
  let s0 : State := {}
  if argc = 1 then some (0, show_usage argv0 s0) else
  let i := init_all hdr env s0
  if i.1 ≠ 0 then some (1, close_all i.2) else
  match main_options hdr env opts (main_locals hdr) i.2 with
  | .exit code s => some (code, s)
  | .next l s =>
    match l.command_opt with
    | CMD_UNKNOWN => some (-1, close_all (show_usage argv0 s))
    | CMD_SHOWNODES =>
      (show_nodes hdr env fuel l.nodeid_format l.address_format s).map
        (fun r => (r.1, close_all r.2))
    | CMD_SHOWSTATUS =>
      (show_status hdr env fuel s).map (fun r => (r.1, close_all r.2))
    | CMD_SETVOTES =>
      let r := set_votes hdr env l.nodeid l.votes s
      some (r.1, close_all r.2)
    | CMD_SETEXPECTED =>
      let r := set_expected hdr env l.votes s
      some (r.1, close_all r.2)

/-! ## Vocabulary of the statements -/

/-- Calls on the vote channel. -/
def Call.is_votequorum : Call → Bool
  | Call.votequorum_initialize => true
  | .votequorum_finalize _ => true
  | .votequorum_setvotes _ _ _ => true
  | .votequorum_setexpected _ _ => true
  | .votequorum_getinfo _ _ => true
  | _ => false

/-- Calls of `quorum_dispatch`. -/
def Call.is_dispatch : Call → Bool
  | .quorum_dispatch _ _ => true
  | _ => false

/-- Calls that open a session. -/
def Call.opens_session : Call → Bool
  | Call.confdb_initialize => true
  | Call.quorum_initialize => true
  | Call.corosync_cfg_initialize => true
  | Call.votequorum_initialize => true
  | _ => false

/-- Calls that release a session. -/
def Call.closes_session : Call → Bool
  | .confdb_finalize _ => true
  | .quorum_finalize _ => true
  | .corosync_cfg_finalize _ => true
  | .votequorum_finalize _ => true
  | _ => false

/-- The message with which `main` refuses `-v` or `-e` when `using_votequorum`
is not positive. -/
def not_using_votequorum_message (opt : Char) : String :=
  if opt = 'e' then "You cannot change expected votes, corosync is not using votequorum\n"
  else "You cannot change node votes, corosync is not using votequorum\n"

/-- State in which the loop of `show_status` is left after `n + 1` dispatch
calls, the callback being invoked during the last one. -/
def show_status_wait_result (hdr : Headers) (env : Env) (v : Notification) (n : Nat) (s : State) :
    Int × State :=
  let st := (env.resp (s.trace.length + n)).status
  let s1 := quorum_notification_fn v
    { s with trace := s.trace ++
        List.replicate (n + 1) (.quorum_dispatch s.q_handle hdr.CS_DISPATCH_ONE) }
  (st, if st ≠ hdr.CS_OK then eprintf ("quorum_dispatch FAILED: " ++ fmt_d st ++ "\n") s1 else s1)

/-- The chunks of the vote block of `show_status`, lines 368-378. -/
def vote_block (hdr : Headers) (info : votequorum_info) : List String :=
  ["Node votes:       " ++ fmt_d info.node_votes ++ "\n",
   "Expected votes:   " ++ fmt_d info.node_expected_votes ++ "\n",
   "Highest expected: " ++ fmt_d info.highest_expected ++ "\n",
   "Total votes:      " ++ fmt_d info.total_votes ++ "\n",
   "Quorum:           " ++ fmt_d info.quorum ++ " " ++
    (if info.flags &&& hdr.VOTEQUORUM_INFO_FLAG_QUORATE ≠ 0 then " " else "Activity blocked")
    ++ "\n",
   "Flags:            "] ++
  (if info.flags &&& hdr.VOTEQUORUM_INFO_FLAG_HASSTATE ≠ 0 then ["HasState "] else []) ++
  (if info.flags &&& hdr.VOTEQUORUM_INFO_FLAG_DISALLOWED ≠ 0 then ["DisallowedNodes "] else []) ++
  (if info.flags &&& hdr.VOTEQUORUM_INFO_FLAG_TWONODE ≠ 0 then ["2Node "] else []) ++
  (if info.flags &&& hdr.VOTEQUORUM_INFO_FLAG_QUORATE ≠ 0 then ["Quorate "] else []) ++
  ["\n"]

/-- The environment that differs from `env` only in the quorate argument the
library passes to `quorum_notification_fn`: during the k-th call it is `q k`. -/
def set_notif_quorate (q : Nat → Nat) (env : Env) : Env :=
  { env with
    resp := fun k =>
      { env.resp k with
        notif := (env.resp k).notif.map (fun v => { v with quorate := q k }) } }

/-- What `show_status` writes to stdout when every call succeeds: `quorate` is
the value stored by `quorum_getquorate`, `entries` and `ring_id` come from the
delivered view, `value` is the bytes read from the configuration store and
`info` what `votequorum_getinfo` stored. -/
def status_report (hdr : Headers) (quorate : Int) (entries ring_id : Nat) (value : String)
    (v_handle : Nat) (info : votequorum_info) : List String :=
  ["Version:          " ++ hdr.VERSION ++ "\n",
   "Nodes:            " ++ fmt_d (to_int entries) ++ "\n",
   "Ring ID:          " ++ fmt_u64 ring_id ++ "\n",
   "Quorum type:      " ++
     (if hdr.CS_OK ≠ 0 then "Not configured" else copy_quorum_type value 256) ++ "\n",
   "Quorate:          " ++ (if quorate ≠ 0 then "Yes" else "No") ++ "\n"] ++
  (if v_handle = 0 then [] else vote_block hdr info)

/-- What a row of `show_nodes` shows: the node id, the votes and the name. -/
structure RowData where
  nodeid : Nat
  votes : Int
  name : String

/-- Decimal text of a signed number: a minus sign for a negative one, then the
decimal digits of its absolute value. -/
def int_digits (i : Int) : List Char :=
  if i < 0 then '-' :: Nat.toDigits 10 i.natAbs else Nat.toDigits 10 i.natAbs

/-- The text of a row as the specification describes it, written out without
the functions of the embedding: the node id in at least 4 columns (decimal,
blank padded, or `0x` and hexadecimal, zero padded) and three blanks; then,
with a vote column, the votes in at least 3 columns and two blanks; then the
name and a newline.  Two chunks, one per `printf` call. -/
def row_text (nodeid_format : nodeid_format_t) (with_votes : Bool) (r : RowData) :
    List String :=
  [(match nodeid_format with
    | NODEID_FORMAT_DECIMAL =>
      String.mk (List.replicate (4 - (Nat.toDigits 10 r.nodeid).length) ' ' ++
        Nat.toDigits 10 r.nodeid)
    | NODEID_FORMAT_HEX =>
      "0x" ++ String.mk (List.replicate (4 - (Nat.toDigits 16 r.nodeid).length) '0' ++
        Nat.toDigits 16 r.nodeid)) ++ "   ",
   (if with_votes then
      String.mk (List.replicate (3 - (int_digits r.votes).length) ' ' ++ int_digits r.votes)
        ++ "  "
    else "") ++ r.name ++ "\n"]

/-- The votes a row shows when its vote query is call number `k` of the run:
the stored `node_votes` when that call returns `CS_OK`, the sentinel `-1` when
it fails. -/
def expected_votes (hdr : Headers) (env : Env) (k : Nat) : Int :=
  if (env.resp k).status = hdr.CS_OK then (env.resp k).info.node_votes else -1

/-- The name a row shows when its address query is call number `k` of the run
and the name resolution, if made, call number `k + 1`: the resolved host when
the address query returns `CS_OK` and the resolution returns 0, empty when
either fails. -/
def expected_name (hdr : Headers) (env : Env) (k : Nat) : String :=
  if (env.resp k).status = hdr.CS_OK ∧ (env.resp (k + 1)).status = 0 then
    (env.resp (k + 1)).host
  else ""

/-- The calls of the name lookup of a row that starts at call number `k`: the
address query for the node and, when it succeeds, the resolution of the first
address. -/
def expected_name_calls (hdr : Headers) (env : Env) (c_handle : Nat)
    (name_format : name_format_t) (k nodeid : Nat) : List Call :=
  .corosync_cfg_get_node_addrs c_handle nodeid hdr.INTERFACE_MAX ::
    (if (env.resp k).status = hdr.CS_OK then
      [.getnameinfo (env.resp k).addr
        (if (env.resp k).addr.ss_family = hdr.AF_INET6 then hdr.sizeof_sockaddr_in6
          else hdr.sizeof_sockaddr_in)
        (if name_format = ADDRESS_FORMAT_IP then hdr.NI_NUMERICHOST else 0)]
    else [])

/-- The library calls of the row of node `nodeid` that starts at call number
`k`: its own vote query (with a vote channel) and its own name lookup, in the
order in which the arguments of `printf` are evaluated. -/
def expected_row_calls (hdr : Headers) (env : Env) (v_handle c_handle : Nat)
    (name_format : name_format_t) (k nodeid : Nat) : List Call :=
  if v_handle ≠ 0 then
    if env.args_right_to_left then
      expected_name_calls hdr env c_handle name_format k nodeid ++
        [.votequorum_getinfo v_handle nodeid]
    else
      .votequorum_getinfo v_handle nodeid ::
        expected_name_calls hdr env c_handle name_format (k + 1) nodeid
  else expected_name_calls hdr env c_handle name_format k nodeid

/-- What the row of node `nodeid` that starts at call number `k` shows, read
off the answers to its own calls. -/
def expected_row (hdr : Headers) (env : Env) (v_handle c_handle : Nat)
    (name_format : name_format_t) (k nodeid : Nat) : RowData :=
  if v_handle ≠ 0 then
    if env.args_right_to_left then
      { nodeid := nodeid
        votes := expected_votes hdr env
          (k + (expected_name_calls hdr env c_handle name_format k nodeid).length)
        name := expected_name hdr env k }
    else
      { nodeid := nodeid
        votes := expected_votes hdr env k
        name := expected_name hdr env (k + 1) }
  else { nodeid := nodeid, votes := 0, name := expected_name hdr env k }

/-- The rows for the members `ns` in order, the first row starting at call
number `k` and every row starting where the row before it ended. -/
def expected_rows (hdr : Headers) (env : Env) (v_handle c_handle : Nat)
    (name_format : name_format_t) : Nat → List Nat → List RowData
  | _, [] => []
  | k, n :: ns =>
    expected_row hdr env v_handle c_handle name_format k n ::
      expected_rows hdr env v_handle c_handle name_format
        (k + (expected_row_calls hdr env v_handle c_handle name_format k n).length) ns

/-- The library calls of all rows, in order. -/
def expected_rows_calls (hdr : Headers) (env : Env) (v_handle c_handle : Nat)
    (name_format : name_format_t) : Nat → List Nat → List Call
  | _, [] => []
  | k, n :: ns =>
    expected_row_calls hdr env v_handle c_handle name_format k n ++
      expected_rows_calls hdr env v_handle c_handle name_format
        (k + (expected_row_calls hdr env v_handle c_handle name_format k n).length) ns

/-- State of `show_nodes` when it enters its `for` loop, after `n + 1`
dispatch calls of which the last delivered the view `v`. -/
def show_nodes_loop_entry (hdr : Headers) (env : Env) (v : Notification) (n : Nat)
    (s : State) : State :=
  { s with
    q_handle := 0
    c_handle := (env.resp (s.trace.length + n + 3)).handle
    g_called := 1
    g_quorate := v.quorate
    g_ring_id := v.ring_id
    g_view_list_entries := v.view_list.length
    g_view_list := v.view_list
    trace := s.trace ++ .quorum_trackstart s.q_handle hdr.CS_TRACK_CURRENT ::
      (List.replicate (n + 1) (.quorum_dispatch s.q_handle hdr.CS_DISPATCH_ONE) ++
        [.quorum_finalize s.q_handle, Call.corosync_cfg_initialize])
    out := s.out ++
      [if s.v_handle ≠ 0 then "Nodeid     Votes  Name\n" else "Nodeid     Name\n"] }

/-- Value of a decimal or lowercase hexadecimal digit; 16 for every other
character. -/
def digit_value (c : Char) : Nat :=
  if c = '0' then 0 else if c = '1' then 1 else if c = '2' then 2 else if c = '3' then 3
  else if c = '4' then 4 else if c = '5' then 5 else if c = '6' then 6 else if c = '7' then 7
  else if c = '8' then 8 else if c = '9' then 9 else if c = 'a' then 10 else if c = 'b' then 11
  else if c = 'c' then 12 else if c = 'd' then 13 else if c = 'e' then 14
  else if c = 'f' then 15 else 16

/-- One step of reading a number: a digit of the base is appended, any other
character is skipped. -/
def read_digit (base : Nat) (a : Nat) (c : Char) : Nat :=
  if digit_value c < base then a * base + digit_value c else a

/-- The number that the digits of a text denote in the given base, most
significant digit first; characters that are not digits of the base are
skipped. -/
def read_number (base : Nat) (cs : List Char) : Nat := cs.foldl (read_digit base) 0

/-- Calls that change votes. -/
def Call.sets_votes : Call → Bool
  | .votequorum_setvotes _ _ _ => true
  | .votequorum_setexpected _ _ => true
  | _ => false

/-- A trace without `votequorum_setvotes` and `votequorum_setexpected`. -/
def no_set_call (t : List Call) : Prop := ∀ x ∈ t, x.sets_votes = false

/-- The result of handling options when `using_votequorum` is never positive:
no set command is selected and no set call is made. -/
def no_set_step (l : Locals) : Step → Prop
  | .next l1 s1 => (l.command_opt ≠ CMD_SETVOTES ∧ l.command_opt ≠ CMD_SETEXPECTED →
      l1.command_opt ≠ CMD_SETVOTES ∧ l1.command_opt ≠ CMD_SETEXPECTED) ∧
      no_set_call s1.trace
  | .exit _ s1 => no_set_call s1.trace

/-! ## Concrete runs -/

/-- A daemon on which every call returns `CS_OK = 1`, whose configuration
store holds `quorum.provider = corosync_votequorum`, which hands out handle
`100 + k` at call `k` and delivers the view `[1, 2]` on every dispatch.  (The
same answer 1 makes `getnameinfo` fail: no name is resolved.)  `strtol` knows
the texts `5`, `3` and `-1`. -/
def votequorumEnv : Env where
  resp := fun k =>
    { status := 1
      handle := 100 + k
      quorate := 1
      notif := some { quorate := 1, ring_id := 44, view_list := [1, 2] }
      value := "corosync_votequorum"
      info := { node_votes := 1, node_expected_votes := 2, highest_expected := 2,
                total_votes := 2, quorum := 2, flags := 8 }
      addr := { ss_family := 2, bytes := 0 }
      host := "" }
  strtol := fun a =>
    if a = "5" then (5, false) else if a = "3" then (3, false)
    else if a = "-1" then (-1, false) else (0, true)
  args_right_to_left := false

/-- A daemon like `votequorumEnv` whose configuration store names another
quorum provider. -/
def otherProviderEnv : Env :=
  { votequorumEnv with
    resp := fun k => { votequorumEnv.resp k with value := "testquorum" } }

/-- A daemon like `votequorumEnv` whose call number `k` (counting from 0)
fails with `CS_ERR_LIBRARY = 2`, and which delivers no view during that call
or any call before it. -/
def callFailsEnv (k : Nat) : Env :=
  { votequorumEnv with
    resp := fun j =>
      if j < k then { votequorumEnv.resp j with notif := none }
      else if j = k then { votequorumEnv.resp j with status := 2, notif := none }
      else votequorumEnv.resp j }

/-- A daemon for a run of `show_nodes` with a vote channel from an empty
trace: the view `[1, 2, 3]` is delivered at the first dispatch (call 1); row 1
gets its votes (call 4), its address (call 5) and its name (call 6, which
returns 0 and `node1`); for row 2 the vote query (call 7) and the address
query (call 8) fail with `CS_ERR_LIBRARY = 2`; row 3 gets its votes (call 9)
and its address (call 10) but the name resolution (call 11) fails.  The votes
stored at call `k` are `k`. -/
def mixedRowsEnv : Env where
  resp := fun k =>
    { status := if k = 6 then 0 else if k = 7 ∨ k = 8 then 2 else if k = 11 then -2 else 1
      handle := 100 + k
      quorate := 1
      notif := some { quorate := 1, ring_id := 44, view_list := [1, 2, 3] }
      value := "corosync_votequorum"
      info := { node_votes := k, node_expected_votes := 3, highest_expected := 3,
                total_votes := 3, quorum := 2, flags := 8 }
      addr := { ss_family := 2, bytes := k }
      host := if k = 6 then "node1" else "unused" }
  strtol := fun _ => (0, true)
  args_right_to_left := false

theorem get_quorum_type_state (hdr : Headers) (env : Env) (n : Nat) (s : State) :
    ∃ t, (get_quorum_type hdr env n s).2 = { s with trace := s.trace ++ t } ∧
      ∀ x ∈ t, x.is_votequorum = false ∧ x.opens_session = false ∧ x.closes_session = false
        ∧ x.is_dispatch = false := by
  simp only [get_quorum_type]
  split_ifs
  · exact ⟨[], by simp⟩
  · exact ⟨[.confdb_object_find_start s.confdb_handle hdr.OBJECT_PARENT_HANDLE],
      by simp [log], by simp [Call.is_votequorum, Call.opens_session, Call.closes_session,
        Call.is_dispatch]⟩
  · exact ⟨[.confdb_object_find_start s.confdb_handle hdr.OBJECT_PARENT_HANDLE,
      .confdb_object_find s.confdb_handle hdr.OBJECT_PARENT_HANDLE "quorum"],
      by simp [log], by simp [Call.is_votequorum, Call.opens_session, Call.closes_session,
        Call.is_dispatch]⟩
  · exact ⟨[.confdb_object_find_start s.confdb_handle hdr.OBJECT_PARENT_HANDLE,
      .confdb_object_find s.confdb_handle hdr.OBJECT_PARENT_HANDLE "quorum",
      .confdb_key_get s.confdb_handle (env.resp (s.trace.length + 1)).handle "provider"],
      by simp [log, resp], by simp [Call.is_votequorum, Call.opens_session, Call.closes_session,
        Call.is_dispatch]⟩
  · exact ⟨[.confdb_object_find_start s.confdb_handle hdr.OBJECT_PARENT_HANDLE,
      .confdb_object_find s.confdb_handle hdr.OBJECT_PARENT_HANDLE "quorum",
      .confdb_key_get s.confdb_handle (env.resp (s.trace.length + 1)).handle "provider"],
      by simp [log, resp], by simp [Call.is_votequorum, Call.opens_session, Call.closes_session,
        Call.is_dispatch]⟩

theorem get_quorum_type_ne_zero (hdr : Headers) (env : Env) (s : State)
    (hOK : hdr.CS_OK ≠ 0) (h : (get_quorum_type hdr env 256 s).1.1 = 0) :
    (get_quorum_type hdr env 256 s).1.2 = "" := by
  simp only [get_quorum_type] at h ⊢
  split_ifs at h ⊢ <;> simp_all

theorem using_votequorum_le_zero (hdr : Headers) (env : Env) (s : State)
    (hOK : hdr.CS_OK ≠ 0) : (using_votequorum hdr env s).1 ≤ 0 := by
  unfold using_votequorum
  by_cases h : (get_quorum_type hdr env 256 s).1.1 = 0
  · have h2 := get_quorum_type_ne_zero hdr env s hOK h
    simp [h, h2]
  · simp [h]

theorem using_votequorum_state (hdr : Headers) (env : Env) (s : State) :
    (using_votequorum hdr env s).2 = (get_quorum_type hdr env 256 s).2 := by
  simp only [using_votequorum]
  split_ifs <;> rfl

/-! ## The option loop of `main` -/

theorem using_votequorum_trace (hdr : Headers) (env : Env) (s : State) :
    ∃ t, (using_votequorum hdr env s).2 = { s with trace := s.trace ++ t } ∧
      ∀ x ∈ t, x.is_votequorum = false ∧ x.opens_session = false ∧ x.closes_session = false
        ∧ x.is_dispatch = false := by
  rw [using_votequorum_state]
  exact get_quorum_type_state hdr env 256 s

theorem mem_using_votequorum_trace (hdr : Headers) (env : Env) (s : State) (x : Call)
    (hx : x ∈ (using_votequorum hdr env s).2.trace) :
    x ∈ s.trace ∨ (x.is_votequorum = false ∧ x.opens_session = false ∧ x.closes_session = false
        ∧ x.is_dispatch = false) := by
  obtain ⟨t, ht, hv⟩ := using_votequorum_trace hdr env s
  rw [ht] at hx
  simp only [List.mem_append] at hx
  rcases hx with hx | hx
  · exact Or.inl hx
  · exact Or.inr (hv x hx)

theorem main_option_other (hdr : Headers) (env : Env) (o : Char × String) (l : Locals)
    (s : State) (ho : o.1 ≠ 'v' ∧ o.1 ≠ 'e') :
    ∃ l1 m, main_option hdr env o.1 o.2 l s = .next l1 { s with err := s.err ++ m } := by
  obtain ⟨hv, he⟩ := ho
  simp only [main_option, hv, he, if_false]
  split_ifs
  · exact ⟨_, [], by rw [List.append_nil]⟩
  · exact ⟨_, [], by rw [List.append_nil]⟩
  · exact ⟨_, [], by rw [List.append_nil]⟩
  · exact ⟨_, [], by rw [List.append_nil]⟩
  · exact ⟨_, [_], rfl⟩
  · exact ⟨_, [], by rw [List.append_nil]⟩
  · exact ⟨_, [], by rw [List.append_nil]⟩

theorem main_options_other (hdr : Headers) (env : Env) (pre : List (Char × String)) :
    ∀ (l : Locals) (s : State), (∀ o ∈ pre, o.1 ≠ 'v' ∧ o.1 ≠ 'e') →
    ∃ l1 m, main_options hdr env pre l s = .next l1 { s with err := s.err ++ m } := by
  induction pre with
  | nil => intro l s _; exact ⟨l, [], by simp [main_options]⟩
  | cons o os ih =>
    intro l s h
    obtain ⟨l1, m1, h1⟩ := main_option_other hdr env o l s (h o (by simp))
    obtain ⟨l2, m2, h2⟩ := ih l1 { s with err := s.err ++ m1 }
      (fun x hx => h x (by simp [hx]))
    refine ⟨l2, m1 ++ m2, ?_⟩
    simp only [main_options, h1, h2]
    simp

theorem main_options_append (hdr : Headers) (env : Env) (pre post : List (Char × String)) :
    ∀ (l : Locals) (s : State),
    main_options hdr env (pre ++ post) l s =
      match main_options hdr env pre l s with
      | .next l1 s1 => main_options hdr env post l1 s1
      | .exit code s1 => .exit code s1 := by
  induction pre with
  | nil => intro l s; simp [main_options]
  | cons o os ih =>
    intro l s
    simp only [List.cons_append, main_options]
    cases h : main_option hdr env o.1 o.2 l s with
    | next l1 s1 => simp [ih]
    | exit code s1 => simp

theorem main_option_refused (hdr : Headers) (env : Env) (c : Char) (optarg : String)
    (l : Locals) (s : State) (hc : c = 'v' ∨ c = 'e')
    (hu : (using_votequorum hdr env s).1 ≤ 0) :
    main_option hdr env c optarg l s =
      .exit 2 (eprintf (not_using_votequorum_message c) (using_votequorum hdr env s).2) := by
  have hu2 : ¬ (using_votequorum hdr env s).1 > 0 := by omega
  rcases hc with rfl | rfl
  · simp [main_option, hu2, not_using_votequorum_message]
  · simp [main_option, hu2, not_using_votequorum_message]

theorem init_all_trace (hdr : Headers) (env : Env)
    (hu : ∀ s, (using_votequorum hdr env s).1 ≤ 0) :
    ∀ x ∈ (init_all hdr env {}).2.trace, x.is_votequorum = false := by
  simp only [init_all]
  split_ifs with h1 h2 h3 h4 h5
  · simp [log, eprintf, Call.is_votequorum]
  · simp [log, eprintf, Call.is_votequorum]
  · simp [log, eprintf, Call.is_votequorum]
  · intro x hx
    rcases mem_using_votequorum_trace _ _ _ _ hx with h | h
    · revert h; simp [log]; rintro (h | h | h) <;> simp [h, Call.is_votequorum]
    · exact h.1
  · exact absurd (hu _) h4
  · exact absurd (hu _) h4

theorem main_options_next_other (hdr : Headers) (env : Env)
    (hu : ∀ s, (using_votequorum hdr env s).1 ≤ 0) (pre : List (Char × String)) :
    ∀ (l : Locals) (s : State) (l1 : Locals) (s1 : State),
    main_options hdr env pre l s = .next l1 s1 → ∀ o ∈ pre, o.1 ≠ 'v' ∧ o.1 ≠ 'e' := by
  induction pre with
  | nil => intro l s l1 s1 _ o ho; simp at ho
  | cons p ps ih =>
    intro l s l1 s1 h o ho
    have hp : p.1 ≠ 'v' ∧ p.1 ≠ 'e' := by
      by_contra hcon
      have hc : p.1 = 'v' ∨ p.1 = 'e' := by
        by_cases hv : p.1 = 'v'
        · exact Or.inl hv
        · by_cases he : p.1 = 'e'
          · exact Or.inr he
          · exact absurd ⟨hv, he⟩ hcon
      simp [main_options, main_option_refused hdr env p.1 p.2 l s hc (hu s)] at h
    simp only [List.mem_cons] at ho
    rcases ho with rfl | ho
    · exact hp
    · obtain ⟨l2, m, h2⟩ := main_option_other hdr env p l s hp
      simp only [main_options, h2] at h
      exact ih _ _ _ _ h o ho

theorem exists_first_vote_option (opts : List (Char × String))
    (h : ∃ o ∈ opts, o.1 = 'v' ∨ o.1 = 'e') :
    ∃ pre c a post, opts = pre ++ (c, a) :: post ∧ (∀ o ∈ pre, o.1 ≠ 'v' ∧ o.1 ≠ 'e') ∧
      (c = 'v' ∨ c = 'e') := by
  induction opts with
  | nil => simp at h
  | cons o os ih =>
    by_cases ho : o.1 = 'v' ∨ o.1 = 'e'
    · exact ⟨[], o.1, o.2, os, by simp, by simp, ho⟩
    · have h2 : ∃ o ∈ os, o.1 = 'v' ∨ o.1 = 'e' := by
        obtain ⟨x, hx, hx2⟩ := h
        simp only [List.mem_cons] at hx
        rcases hx with rfl | hx
        · exact absurd hx2 ho
        · exact ⟨x, hx, hx2⟩
      obtain ⟨pre, c, a, post, h3, h4, h5⟩ := ih h2
      refine ⟨o :: pre, c, a, post, by simp [h3], ?_, h5⟩
      intro x hx
      simp only [List.mem_cons] at hx
      rcases hx with rfl | hx
      · exact ⟨fun h => ho (Or.inl h), fun h => ho (Or.inr h)⟩
      · exact h4 x hx

/-- When `using_votequorum` is never positive, `main` ends with `exit(2)` at
the first `-v` or `-e` option. -/
theorem main_exits_at_first_vote_option
    (hdr : Headers) (env : Env) (argc : Nat) (argv0 : String)
    (pre : List (Char × String)) (c : Char)
    (hargc : argc ≠ 1)
    (hinit : (init_all hdr env {}).1 = 0)
    (hu : ∀ s, (using_votequorum hdr env s).1 ≤ 0)
    (hpre : ∀ o ∈ pre, o.1 ≠ 'v' ∧ o.1 ≠ 'e')
    (hc : c = 'v' ∨ c = 'e') :
    ∃ l σ st,
      main_options hdr env pre (main_locals hdr) (init_all hdr env {}).2 = .next l σ ∧
      st = eprintf (not_using_votequorum_message c) (using_votequorum hdr env σ).2 ∧
      (∀ fuel optarg post,
        main hdr env fuel argc argv0 (pre ++ (c, optarg) :: post) = some (2, st)) ∧
      st.err = σ.err ++ [not_using_votequorum_message c] ∧
      st.out = σ.out ∧
      (∀ x ∈ st.trace, x.is_votequorum = false) := by
  obtain ⟨l, m, hpre2⟩ := main_options_other hdr env pre (main_locals hdr)
    (init_all hdr env {}).2 hpre
  obtain ⟨t, ht, hv⟩ := using_votequorum_trace hdr env
    { (init_all hdr env {}).2 with err := (init_all hdr env {}).2.err ++ m }
  refine ⟨l, _, _, hpre2, rfl, ?_, ?_, ?_, ?_⟩
  · intro fuel optarg post
    simp only [main, hargc, hinit, if_false, ne_eq, not_true_eq_false, main_options_append, hpre2,
      main_options]
    rw [main_option_refused hdr env c optarg l _ hc (hu _)]
  · rw [ht]; simp [eprintf]
  · rw [ht]; simp [eprintf]
  · rw [ht]
    intro x hx
    simp only [eprintf, List.mem_append] at hx
    rcases hx with hx | hx
    · exact init_all_trace hdr env hu x hx
    · exact (hv x hx).1


/-! ## The wait loops -/

theorem quorum_dispatch_none (hdr : Headers) (env : Env) (s : State)
    (h : (env.resp s.trace.length).notif = none) :
    quorum_dispatch hdr env s =
      ((env.resp s.trace.length).status,
        log (.quorum_dispatch s.q_handle hdr.CS_DISPATCH_ONE) s) := by
  simp [quorum_dispatch, resp, h]

theorem quorum_dispatch_some (hdr : Headers) (env : Env) (s : State) (v : Notification)
    (h : (env.resp s.trace.length).notif = some v) :
    quorum_dispatch hdr env s =
      ((env.resp s.trace.length).status,
        quorum_notification_fn v (log (.quorum_dispatch s.q_handle hdr.CS_DISPATCH_ONE) s)) := by
  simp [quorum_dispatch, resp, h]

theorem show_nodes_wait_delivered (hdr : Headers) (env : Env) (v : Notification) :
    ∀ (n fuel : Nat) (s : State), s.g_called = 0 →
      (∀ j < n, (env.resp (s.trace.length + j)).notif = none) →
      (env.resp (s.trace.length + n)).notif = some v →
      n + 2 ≤ fuel →
      show_nodes_wait hdr env fuel s = some (quorum_notification_fn v
        { s with trace := s.trace ++
            List.replicate (n + 1) (.quorum_dispatch s.q_handle hdr.CS_DISPATCH_ONE) }) := by
  intro n
  induction n with
  | zero =>
    intro fuel s hc _ hv hf
    obtain ⟨f, rfl⟩ : ∃ f, fuel = f + 2 := ⟨fuel - 2, by omega⟩
    simp only [Nat.add_zero] at hv
    simp [show_nodes_wait, hc, quorum_dispatch_some hdr env s v hv, quorum_notification_fn, log]
  | succ n ih =>
    intro fuel s hc hn hv hf
    obtain ⟨f, rfl⟩ : ∃ f, fuel = f + 1 := ⟨fuel - 1, by omega⟩
    have h0 : (env.resp s.trace.length).notif = none := by simpa using hn 0 (by omega)
    simp only [show_nodes_wait, hc, if_true, quorum_dispatch_none hdr env s h0]
    rw [ih f (log (.quorum_dispatch s.q_handle hdr.CS_DISPATCH_ONE) s) (by simp [log, hc])
      (fun j hj => by
        have := hn (j + 1) (by omega)
        simpa [log, Nat.add_assoc, Nat.add_comm 1 j] using this)
      (by simpa [log, Nat.add_assoc, Nat.add_comm 1 n] using hv) (by omega)]
    simp [log, List.replicate_succ, quorum_notification_fn]

theorem show_nodes_wait_never (hdr : Headers) (env : Env) :
    ∀ (fuel : Nat) (s : State), s.g_called = 0 →
      (∀ j, (env.resp (s.trace.length + j)).notif = none) →
      show_nodes_wait hdr env fuel s = none := by
  intro fuel
  induction fuel with
  | zero => intro s _ _; rfl
  | succ f ih =>
    intro s hc hn
    have h0 : (env.resp s.trace.length).notif = none := by simpa using hn 0
    simp only [show_nodes_wait, hc, if_true, quorum_dispatch_none hdr env s h0]
    exact ih _ (by simp [log, hc]) (fun j => by
      have := hn (j + 1)
      simpa [log, Nat.add_assoc, Nat.add_comm 1 j] using this)

theorem show_status_wait_delivered (hdr : Headers) (env : Env) (v : Notification) :
    ∀ (n fuel : Nat) (s : State), s.g_called = 0 →
      (∀ j < n, (env.resp (s.trace.length + j)).notif = none) →
      (∀ j < n, (env.resp (s.trace.length + j)).status = hdr.CS_OK) →
      (env.resp (s.trace.length + n)).notif = some v →
      n + 2 ≤ fuel →
      show_status_wait hdr env fuel hdr.CS_OK s = some (show_status_wait_result hdr env v n s) := by
  intro n
  induction n with
  | zero =>
    intro fuel s hc _ _ hv hf
    obtain ⟨f, rfl⟩ : ∃ f, fuel = f + 2 := ⟨fuel - 2, by omega⟩
    simp only [Nat.add_zero] at hv
    simp only [show_status_wait, hc, true_and, if_true, quorum_dispatch_some hdr env s v hv]
    split_ifs <;> simp_all [show_status_wait_result, quorum_notification_fn, log, eprintf]
  | succ n ih =>
    intro fuel s hc hn hs hv hf
    obtain ⟨f, rfl⟩ : ∃ f, fuel = f + 1 := ⟨fuel - 1, by omega⟩
    have h0 : (env.resp s.trace.length).notif = none := by simpa using hn 0 (by omega)
    have h1 : (env.resp s.trace.length).status = hdr.CS_OK := by simpa using hs 0 (by omega)
    simp only [show_status_wait, hc, true_and, if_true, quorum_dispatch_none hdr env s h0, h1,
      ne_eq, not_true_eq_false, if_false]
    rw [ih f (log (.quorum_dispatch s.q_handle hdr.CS_DISPATCH_ONE) s) (by simp [log, hc])
      (fun j hj => by
        have := hn (j + 1) (by omega)
        simpa [log, Nat.add_assoc, Nat.add_comm 1 j] using this)
      (fun j hj => by
        have := hs (j + 1) (by omega)
        simpa [log, Nat.add_assoc, Nat.add_comm 1 j] using this)
      (by simpa [log, Nat.add_assoc, Nat.add_comm 1 n] using hv) (by omega)]
    simp [show_status_wait_result, log, List.replicate_succ, Nat.add_assoc, Nat.add_comm 1 n]

theorem show_status_wait_never (hdr : Headers) (env : Env) :
    ∀ (fuel : Nat) (s : State), s.g_called = 0 →
      (∀ j, (env.resp (s.trace.length + j)).notif = none) →
      (∀ j, (env.resp (s.trace.length + j)).status = hdr.CS_OK) →
      show_status_wait hdr env fuel hdr.CS_OK s = none := by
  intro fuel
  induction fuel with
  | zero => intro s _ _ _; rfl
  | succ f ih =>
    intro s hc hn hs
    have h0 : (env.resp s.trace.length).notif = none := by simpa using hn 0
    have h1 : (env.resp s.trace.length).status = hdr.CS_OK := by simpa using hs 0
    simp only [show_status_wait, hc, true_and, if_true, quorum_dispatch_none hdr env s h0, h1,
      ne_eq, not_true_eq_false, if_false]
    exact ih _ (by simp [log, hc]) (fun j => by
      have := hn (j + 1)
      simpa [log, Nat.add_assoc, Nat.add_comm 1 j] using this) (fun j => by
      have := hs (j + 1)
      simpa [log, Nat.add_assoc, Nat.add_comm 1 j] using this)


theorem show_status_wait_failed (hdr : Headers) (env : Env) :
    ∀ (n fuel : Nat) (s : State), s.g_called = 0 →
      (∀ j ≤ n, (env.resp (s.trace.length + j)).notif = none) →
      (∀ j < n, (env.resp (s.trace.length + j)).status = hdr.CS_OK) →
      (env.resp (s.trace.length + n)).status ≠ hdr.CS_OK →
      n + 2 ≤ fuel →
      show_status_wait hdr env fuel hdr.CS_OK s = some ((env.resp (s.trace.length + n)).status,
        eprintf ("quorum_dispatch FAILED: " ++ fmt_d (env.resp (s.trace.length + n)).status ++ "\n")
          { s with trace := s.trace ++
              List.replicate (n + 1) (.quorum_dispatch s.q_handle hdr.CS_DISPATCH_ONE) }) := by
  intro n
  induction n with
  | zero =>
    intro fuel s hc hn _ hv hf
    obtain ⟨f, rfl⟩ : ∃ f, fuel = f + 2 := ⟨fuel - 2, by omega⟩
    have h0 : (env.resp s.trace.length).notif = none := by simpa using hn 0 (by omega)
    simp only [Nat.add_zero] at hv
    simp [show_status_wait, hc, quorum_dispatch_none hdr env s h0, hv, log, eprintf]
  | succ n ih =>
    intro fuel s hc hn hs hv hf
    obtain ⟨f, rfl⟩ : ∃ f, fuel = f + 1 := ⟨fuel - 1, by omega⟩
    have h0 : (env.resp s.trace.length).notif = none := by simpa using hn 0 (by omega)
    have h1 : (env.resp s.trace.length).status = hdr.CS_OK := by simpa using hs 0 (by omega)
    simp only [show_status_wait, hc, true_and, if_true, quorum_dispatch_none hdr env s h0, h1,
      ne_eq, not_true_eq_false, if_false]
    rw [ih f (log (.quorum_dispatch s.q_handle hdr.CS_DISPATCH_ONE) s) (by simp [log, hc])
      (fun j hj => by
        have := hn (j + 1) (by omega)
        simpa [log, Nat.add_assoc, Nat.add_comm 1 j] using this)
      (fun j hj => by
        have := hs (j + 1) (by omega)
        simpa [log, Nat.add_assoc, Nat.add_comm 1 j] using this)
      (by simpa [log, Nat.add_assoc, Nat.add_comm 1 n] using hv) (by omega)]
    simp [log, eprintf, List.replicate_succ, Nat.add_assoc, Nat.add_comm 1 n, hc]

/-! ## `show_status` when every call succeeds -/

theorem show_status_info_eq (hdr : Headers) (info : votequorum_info) (s : State) :
    show_status_info hdr info s = { s with out := s.out ++ vote_block hdr info } := by
  simp only [show_status_info, vote_block]
  split_ifs <;> simp [printf]

theorem get_quorum_type_ok (hdr : Headers) (env : Env) (s : State)
    (hall : ∀ k, (env.resp k).status = hdr.CS_OK) :
    get_quorum_type hdr env 256 s =
      ((hdr.CS_OK, copy_quorum_type (env.resp (s.trace.length + 2)).value 256),
       { s with trace := s.trace ++
          [.confdb_object_find_start s.confdb_handle hdr.OBJECT_PARENT_HANDLE,
           .confdb_object_find s.confdb_handle hdr.OBJECT_PARENT_HANDLE "quorum",
           .confdb_key_get s.confdb_handle (env.resp (s.trace.length + 1)).handle "provider"] }) := by
  simp [get_quorum_type, resp, hall, log]

theorem show_status_quorum_err_ok (hdr : Headers) (env : Env) (quorate : Int) (s : State)
    (h0 : 0 ≤ hdr.CS_OK) (hall : ∀ k, (env.resp k).status = hdr.CS_OK) :
    (show_status_quorum_err hdr env quorate hdr.CS_OK s).1 = quorate ∧
    (show_status_quorum_err hdr env quorate hdr.CS_OK s).2.out = s.out ++
      status_report hdr quorate s.g_view_list_entries s.g_ring_id
        (env.resp (s.trace.length + 5)).value s.v_handle (env.resp (s.trace.length + 6)).info ∧
    (show_status_quorum_err hdr env quorate hdr.CS_OK s).2.err = s.err := by
  have h1 : ¬ hdr.CS_OK < 0 := by omega
  simp only [show_status_quorum_err, h1, if_false, get_quorum_type_ok hdr env _ hall,
    show_status_info_eq, resp, hall]
  by_cases hv : s.v_handle = 0
  · simp [printf, hv, status_report, log]
  · simp [printf, hv, status_report, log]

theorem some_result_eq (r : Int × State) (q : Int) (o e : List String)
    (h : r.1 = q ∧ r.2.out = o ∧ r.2.err = e) :
    ∃ st, some r = some (q, st) ∧ st.out = o ∧ st.err = e := by
  obtain ⟨a, b⟩ := r
  exact ⟨b, by simp_all, h.2.1, h.2.2⟩

theorem show_status_ok (hdr : Headers) (env : Env) (v : Notification) (n fuel : Nat) (s : State)
    (h0 : 0 ≤ hdr.CS_OK) (hall : ∀ k, (env.resp k).status = hdr.CS_OK)
    (hnone : ∀ j < n, (env.resp (s.trace.length + 2 + j)).notif = none)
    (hview : (env.resp (s.trace.length + 2 + n)).notif = some v)
    (hfuel : n + 2 ≤ fuel) :
    ∃ st, show_status hdr env fuel s = some ((env.resp s.trace.length).quorate, st) ∧
      st.out = s.out ++ status_report hdr (env.resp s.trace.length).quorate
        v.view_list.length v.ring_id (env.resp (s.trace.length + n + 9)).value s.v_handle
        (env.resp (s.trace.length + n + 10)).info ∧
      st.err = s.err := by
  have hw := show_status_wait_delivered hdr env v n fuel
    { log (.quorum_trackstart (log (.quorum_getquorate s.q_handle) s).q_handle
        hdr.CS_TRACK_CURRENT) (log (.quorum_getquorate s.q_handle) s) with g_called := 0 }
    rfl (by simpa [log, Nat.add_assoc] using hnone) (fun j _ => hall _)
    (by simpa [log, Nat.add_assoc] using hview) hfuel
  simp only [show_status, resp, hall, ne_eq, not_true_eq_false, if_false, hw]
  apply some_result_eq
  have hst : (show_status_wait_result hdr env v n
      { log (.quorum_trackstart (log (.quorum_getquorate s.q_handle) s).q_handle
        hdr.CS_TRACK_CURRENT) (log (.quorum_getquorate s.q_handle) s) with g_called := 0 }).1
      = hdr.CS_OK := by simp [show_status_wait_result, hall]
  rw [hst]
  have hq := show_status_quorum_err_ok hdr env (env.resp s.trace.length).quorate
    (log (.quorum_trackstop (show_status_wait_result hdr env v n
      { log (.quorum_trackstart (log (.quorum_getquorate s.q_handle) s).q_handle
        hdr.CS_TRACK_CURRENT) (log (.quorum_getquorate s.q_handle) s) with g_called := 0 }).2.q_handle)
      (show_status_wait_result hdr env v n
      { log (.quorum_trackstart (log (.quorum_getquorate s.q_handle) s).q_handle
        hdr.CS_TRACK_CURRENT) (log (.quorum_getquorate s.q_handle) s) with g_called := 0 }).2) h0 hall
  refine ⟨hq.1, ?_, ?_⟩
  · rw [hq.2.1]
    simp [show_status_wait_result, hall, log, quorum_notification_fn]
    rw [show s.trace.length + (n + 1 + 1 + 1 + 1) + 5 = s.trace.length + n + 9 by omega,
      show s.trace.length + (n + 1 + 1 + 1 + 1) + 6 = s.trace.length + n + 10 by omega]
  · rw [hq.2.2]
    simp [show_status_wait_result, hall, log, quorum_notification_fn]

/-! ## The rows of `show_nodes` -/

theorem fmt_d_data (i : Int) : (fmt_d i).data = int_digits i := by
  cases i with
  | ofNat m =>
    have h : ¬ ((m : Int) < 0) := by omega
    simp [fmt_d, int_digits, h, Nat.repr, List.asString]
  | negSucc m =>
    have h : Int.negSucc m < 0 := Int.negSucc_lt_zero m
    simp [fmt_d, int_digits, h, Nat.repr, List.asString, String.data_append]

theorem row_text_eq (fmt : nodeid_format_t) (b : Bool) (r : RowData) :
    row_text fmt b r = [nodeid_field fmt r.nodeid, row_rest b r.votes r.name] := by
  cases fmt <;> cases b <;>
    simp [row_text, nodeid_field, row_rest, fmt_4u, fmt_04x, fmt_3d, fmt_d_data, List.leftpad,
      String.append_assoc]

theorem node_name_eq (hdr : Headers) (env : Env) (n : Nat) (nf : name_format_t) (s : State) :
    node_name hdr env n nf s =
      (expected_name hdr env s.trace.length,
        { s with trace := s.trace ++
            expected_name_calls hdr env s.c_handle nf s.trace.length n }) := by
  by_cases h1 : (env.resp s.trace.length).status = hdr.CS_OK
  · by_cases h2 : (env.resp (s.trace.length + 1)).status = 0
    · simp [node_name, expected_name, expected_name_calls, resp, log, h1, h2]
    · simp [node_name, expected_name, expected_name_calls, resp, log, h1, h2]
  · simp [node_name, expected_name, expected_name_calls, resp, log, h1]

theorem get_votes_eq (hdr : Headers) (env : Env) (n : Nat) (s : State) :
    get_votes hdr env n s =
      (expected_votes hdr env s.trace.length,
        { s with trace := s.trace ++ [.votequorum_getinfo s.v_handle n] }) := by
  by_cases h1 : (env.resp s.trace.length).status = hdr.CS_OK
  · simp [get_votes, expected_votes, resp, log, h1]
  · simp [get_votes, expected_votes, resp, log, h1]

theorem show_nodes_row_eq (hdr : Headers) (env : Env) (fmt : nodeid_format_t)
    (nf : name_format_t) (n : Nat) (s : State) :
    show_nodes_row hdr env fmt nf n s =
      { s with
        trace := s.trace ++ expected_row_calls hdr env s.v_handle s.c_handle nf s.trace.length n
        out := s.out ++ row_text fmt (decide (s.v_handle ≠ 0))
          (expected_row hdr env s.v_handle s.c_handle nf s.trace.length n) } := by
  rw [row_text_eq]
  by_cases hv : s.v_handle = 0
  · simp [show_nodes_row, node_name_eq, expected_row_calls, expected_row, printf, hv]
  · by_cases hr : env.args_right_to_left = true
    · simp [show_nodes_row, node_name_eq, get_votes_eq, expected_row_calls, expected_row,
        printf, hv, hr]
    · simp [show_nodes_row, node_name_eq, get_votes_eq, expected_row_calls, expected_row,
        printf, hv, hr]

theorem show_nodes_rows_eq (hdr : Headers) (env : Env) (fmt : nodeid_format_t)
    (nf : name_format_t) : ∀ (ns : List Nat) (s : State),
    show_nodes_rows hdr env fmt nf ns s =
      { s with
        trace := s.trace ++ expected_rows_calls hdr env s.v_handle s.c_handle nf s.trace.length ns
        out := s.out ++
          (expected_rows hdr env s.v_handle s.c_handle nf s.trace.length ns).flatMap
            (row_text fmt (decide (s.v_handle ≠ 0))) } := by
  intro ns
  induction ns with
  | nil => intro s; simp [show_nodes_rows, expected_rows, expected_rows_calls]
  | cons n ns ih =>
    intro s
    simp only [show_nodes_rows, show_nodes_row_eq, ih, expected_rows, expected_rows_calls]
    simp

theorem expected_rows_nodeid (hdr : Headers) (env : Env) (vh ch : Nat) (nf : name_format_t) :
    ∀ (ns : List Nat) (k : Nat),
      (expected_rows hdr env vh ch nf k ns).map RowData.nodeid = ns := by
  intro ns
  induction ns with
  | nil => intro k; rfl
  | cons n ns ih =>
    intro k
    simp only [expected_rows, List.map_cons, ih]
    simp only [expected_row]
    split_ifs <;> rfl

theorem show_nodes_eq (hdr : Headers) (env : Env) (v : Notification) (n fuel : Nat)
    (fmt : nodeid_format_t) (nf : name_format_t) (s : State)
    (hfuel : n + 2 ≤ fuel)
    (htrack : (env.resp s.trace.length).status = hdr.CS_OK)
    (hnone : ∀ j < n, (env.resp (s.trace.length + 1 + j)).notif = none)
    (hview : (env.resp (s.trace.length + 1 + n)).notif = some v)
    (hcfg : (env.resp (s.trace.length + n + 3)).status = hdr.CS_OK) :
    show_nodes hdr env fuel fmt nf s = some (EXIT_SUCCESS,
      show_nodes_rows hdr env fmt nf v.view_list (show_nodes_loop_entry hdr env v n s)) := by
  have hw := show_nodes_wait_delivered hdr env v n fuel
    { log (.quorum_trackstart s.q_handle hdr.CS_TRACK_CURRENT) s with g_called := 0 }
    rfl (fun j hj => by simpa [log, Nat.add_assoc] using hnone j hj)
    (by simpa [log, Nat.add_assoc] using hview) hfuel
  have e1 : s.trace.length + 1 + (n + 1) + 1 = s.trace.length + n + 3 := by omega
  simp only [show_nodes, resp, htrack, ne_eq, not_true_eq_false, if_false, hw]
  simp only [quorum_notification_fn, log, List.length_append, List.length_replicate,
    List.length_singleton, e1, hcfg, not_true_eq_false, if_false, show_nodes_loop_entry]
  by_cases hv : s.v_handle = 0
  · simp [hv, printf]
  · simp [hv, printf]

/-! ## Rendering of node ids -/

theorem digit_value_digitChar (d : Nat) (h : d < 16) : digit_value (Nat.digitChar d) = d := by
  interval_cases d <;> rfl

theorem toDigitsCore_spec (b : Nat) (hb : 2 ≤ b) (hb16 : b ≤ 16) :
    ∀ (fuel n : Nat) (ds : List Char), n < fuel →
      ∃ pre, Nat.toDigitsCore b fuel n ds = pre ++ ds ∧ pre ≠ [] ∧
        (∀ c ∈ pre, digit_value c < b) ∧ pre.foldl (read_digit b) 0 = n := by
  intro fuel
  induction fuel with
  | zero => intro n ds h; omega
  | succ f ih =>
    intro n ds h
    have hd : digit_value (Nat.digitChar (n % b)) = n % b :=
      digit_value_digitChar _ (lt_of_lt_of_le (Nat.mod_lt _ (by omega)) hb16)
    have hlt : n % b < b := Nat.mod_lt _ (by omega)
    simp only [Nat.toDigitsCore]
    by_cases h0 : n / b = 0
    · simp only [h0, if_true]
      refine ⟨[Nat.digitChar (n % b)], rfl, by simp, ?_, ?_⟩
      · intro c hc
        simp only [List.mem_singleton] at hc
        rw [hc, hd]; exact hlt
      · have hn : n % b = n := Nat.mod_eq_of_lt ((Nat.div_eq_zero_iff (by omega)).mp h0)
        simp only [List.foldl_cons, List.foldl_nil, read_digit, hd, hlt, if_true, Nat.zero_mul,
          Nat.zero_add]
        exact hn
    · simp only [h0, if_false]
      have hdiv : n / b < f := by
        have : n / b < n := Nat.div_lt_self (by
          rcases Nat.eq_zero_or_pos n with h | h
          · simp [h] at h0
          · exact h) (by omega)
        omega
      obtain ⟨pre, h1, h2, h3, h4⟩ := ih (n / b) (Nat.digitChar (n % b) :: ds) hdiv
      refine ⟨pre ++ [Nat.digitChar (n % b)], by simp [h1], by simp, ?_, ?_⟩
      · intro c hc
        simp only [List.mem_append, List.mem_singleton] at hc
        rcases hc with hc | hc
        · exact h3 c hc
        · rw [hc, hd]; exact hlt
      · rw [List.foldl_append, h4]
        simp only [List.foldl_cons, List.foldl_nil, read_digit, hd, hlt, if_true]
        exact Nat.div_add_mod' n b

theorem toDigits_spec (b : Nat) (hb : 2 ≤ b) (hb16 : b ≤ 16) (n : Nat) :
    Nat.toDigits b n ≠ [] ∧ (∀ c ∈ Nat.toDigits b n, digit_value c < b) ∧
      read_number b (Nat.toDigits b n) = n := by
  obtain ⟨pre, h1, h2, h3, h4⟩ := toDigitsCore_spec b hb hb16 (n + 1) n [] (by omega)
  simp only [List.append_nil] at h1
  simp only [Nat.toDigits, read_number, h1]
  exact ⟨h2, h3, h4⟩

theorem foldl_read_digit_skip (b : Nat) (c : Char) (hc : b ≤ digit_value c) (k a : Nat) :
    (List.replicate k c).foldl (read_digit b) a = a := by
  induction k with
  | zero => rfl
  | succ k ih =>
    simp only [List.replicate_succ, List.foldl_cons, read_digit]
    rw [if_neg (by omega)]
    exact ih

theorem foldl_read_digit_zeros (b : Nat) (hb : 0 < b) (k : Nat) :
    (List.replicate k '0').foldl (read_digit b) 0 = 0 := by
  induction k with
  | zero => rfl
  | succ k ih =>
    simp only [List.replicate_succ, List.foldl_cons, read_digit]
    rw [if_pos (by simpa [digit_value] using hb)]
    simpa [digit_value] using ih

theorem read_number_decimal_field (n : Nat) :
    read_number 10 (nodeid_field NODEID_FORMAT_DECIMAL n).data = n := by
  have h := (toDigits_spec 10 (by omega) (by omega) n).2.2
  simp only [read_number] at h
  simp only [nodeid_field, if_true, fmt_4u, String.data_append, List.leftpad, read_number,
    List.foldl_append]
  rw [foldl_read_digit_skip 10 ' ' (by decide), h]
  rfl

theorem read_number_hex_field (n : Nat) :
    read_number 16 (nodeid_field NODEID_FORMAT_HEX n).data = n := by
  have h := (toDigits_spec 16 (by omega) (by omega) n).2.2
  simp only [read_number] at h
  have e : (nodeid_field NODEID_FORMAT_HEX n).data =
      ['0', 'x'] ++ (List.replicate (4 - (Nat.toDigits 16 n).length) '0' ++ Nat.toDigits 16 n)
        ++ [' ', ' ', ' '] := by
    simp [nodeid_field, fmt_04x, String.data_append, List.leftpad]
  rw [e]
  simp only [read_number, List.foldl_append]
  rw [show List.foldl (read_digit 16) 0 ['0', 'x'] = 0 from rfl,
    foldl_read_digit_zeros 16 (by omega), h]
  rfl

/-! ## Calls that change votes -/

theorem no_set_call_append (t u : List Call) :
    no_set_call (t ++ u) ↔ no_set_call t ∧ no_set_call u := by
  simp only [no_set_call, List.mem_append]
  constructor
  · intro h; exact ⟨fun x hx => h x (Or.inl hx), fun x hx => h x (Or.inr hx)⟩
  · rintro ⟨h1, h2⟩ x (hx | hx)
    · exact h1 x hx
    · exact h2 x hx

theorem no_set_call_singleton (c : Call) : no_set_call [c] ↔ c.sets_votes = false := by
  simp [no_set_call]

theorem no_set_call_log (c : Call) (s : State) :
    no_set_call (log c s).trace ↔ no_set_call s.trace ∧ c.sets_votes = false := by
  simp [log, no_set_call_append, no_set_call_singleton]

theorem printf_trace (x : String) (s : State) : (printf x s).trace = s.trace := rfl

theorem eprintf_trace (x : String) (s : State) : (eprintf x s).trace = s.trace := rfl

theorem sets_votes_of_is_votequorum (x : Call) (h : x.is_votequorum = false) :
    x.sets_votes = false := by
  cases x <;> simp_all [Call.is_votequorum, Call.sets_votes]

theorem no_set_call_get_quorum_type (hdr : Headers) (env : Env) (n : Nat) (s : State) :
    no_set_call (get_quorum_type hdr env n s).2.trace ↔ no_set_call s.trace := by
  obtain ⟨t, ht, hv⟩ := get_quorum_type_state hdr env n s
  rw [ht]
  simp only [no_set_call_append]
  exact ⟨fun h => h.1, fun h => ⟨h, fun x hx => sets_votes_of_is_votequorum x (hv x hx).1⟩⟩

theorem no_set_call_using_votequorum (hdr : Headers) (env : Env) (s : State) :
    no_set_call (using_votequorum hdr env s).2.trace ↔ no_set_call s.trace := by
  rw [using_votequorum_state]
  exact no_set_call_get_quorum_type hdr env 256 s

theorem show_usage_trace (name : String) (s : State) :
    (show_usage name s).trace = s.trace := by
  simp [show_usage, printf]

theorem no_set_call_close_all (s : State) (h : no_set_call s.trace) :
    no_set_call (close_all s).trace := by
  simp only [close_all]
  split_ifs <;> simp [no_set_call_log, h, Call.sets_votes]

theorem no_set_call_quorum_dispatch (hdr : Headers) (env : Env) (s : State)
    (h : no_set_call s.trace) : no_set_call (quorum_dispatch hdr env s).2.trace := by
  simp only [quorum_dispatch]
  split <;> simp [quorum_notification_fn, no_set_call_log, h, Call.sets_votes]

theorem no_set_call_show_status_wait (hdr : Headers) (env : Env) :
    ∀ (fuel : Nat) (err : Int) (s : State) (r : Int × State), no_set_call s.trace →
      show_status_wait hdr env fuel err s = some r → no_set_call r.2.trace := by
  intro fuel
  induction fuel with
  | zero => intro err s r _ h; simp [show_status_wait] at h
  | succ f ih =>
    intro err s r hs h
    simp only [show_status_wait] at h
    split_ifs at h with h1 h2
    · exact ih _ _ _ (by simpa [eprintf_trace] using no_set_call_quorum_dispatch hdr env s hs) h
    · exact ih _ _ _ (no_set_call_quorum_dispatch hdr env s hs) h
    · simp only [Option.some.injEq] at h
      rw [← h]; exact hs

theorem no_set_call_show_nodes_wait (hdr : Headers) (env : Env) :
    ∀ (fuel : Nat) (s r : State), no_set_call s.trace →
      show_nodes_wait hdr env fuel s = some r → no_set_call r.trace := by
  intro fuel
  induction fuel with
  | zero => intro s r _ h; simp [show_nodes_wait] at h
  | succ f ih =>
    intro s r hs h
    simp only [show_nodes_wait] at h
    split_ifs at h with h1
    · exact ih _ _ (no_set_call_quorum_dispatch hdr env s hs) h
    · simp only [Option.some.injEq] at h
      rw [← h]; exact hs

theorem show_status_info_trace (hdr : Headers) (info : votequorum_info) (s : State) :
    (show_status_info hdr info s).trace = s.trace := by
  rw [show_status_info_eq]

theorem no_set_call_show_status_quorum_err (hdr : Headers) (env : Env) (q err : Int)
    (s : State) (h : no_set_call s.trace) :
    no_set_call (show_status_quorum_err hdr env q err s).2.trace := by
  simp only [show_status_quorum_err]
  split_ifs <;>
    simp [show_status_info_trace, no_set_call_log, printf_trace, eprintf_trace,
      no_set_call_get_quorum_type, h, Call.sets_votes]

theorem no_set_call_show_status (hdr : Headers) (env : Env) (fuel : Nat) (s : State)
    (r : Int × State) (hs : no_set_call s.trace) (h : show_status hdr env fuel s = some r) :
    no_set_call r.2.trace := by
  simp only [show_status] at h
  split_ifs at h with h1 h2
  · simp only [Option.some.injEq] at h
    rw [← h]
    exact no_set_call_show_status_quorum_err _ _ _ _ _
      (by simp [eprintf_trace, no_set_call_log, hs, Call.sets_votes])
  · simp only [Option.some.injEq] at h
    rw [← h]
    exact no_set_call_show_status_quorum_err _ _ _ _ _
      (by simp [eprintf_trace, no_set_call_log, hs, Call.sets_votes])
  · split at h
    · simp at h
    · rename_i w hw
      have hw2 := no_set_call_show_status_wait hdr env fuel _ _ w
        (by simp [no_set_call_log, hs, Call.sets_votes]) hw
      simp only [Option.some.injEq] at h
      rw [← h]
      apply no_set_call_show_status_quorum_err
      split_ifs <;> simp [eprintf_trace, no_set_call_log, hw2, Call.sets_votes]

theorem no_set_call_get_votes (hdr : Headers) (env : Env) (n : Nat) (s : State)
    (h : no_set_call s.trace) : no_set_call (get_votes hdr env n s).2.trace := by
  simp only [get_votes]
  split_ifs <;> simp [no_set_call_log, h, Call.sets_votes]

theorem no_set_call_node_name (hdr : Headers) (env : Env) (n : Nat) (nf : name_format_t)
    (s : State) (h : no_set_call s.trace) :
    no_set_call (node_name hdr env n nf s).2.trace := by
  simp only [node_name]
  split_ifs <;> simp [no_set_call_log, h, Call.sets_votes]

theorem no_set_call_show_nodes_row (hdr : Headers) (env : Env) (fmt : nodeid_format_t)
    (nf : name_format_t) (n : Nat) (s : State) (h : no_set_call s.trace) :
    no_set_call (show_nodes_row hdr env fmt nf n s).trace := by
  have hp : no_set_call (printf (nodeid_field fmt n) s).trace := h
  simp only [show_nodes_row]
  split_ifs
  · exact no_set_call_get_votes _ _ _ _ (no_set_call_node_name _ _ _ _ _ hp)
  · exact no_set_call_node_name _ _ _ _ _ (no_set_call_get_votes _ _ _ _ hp)
  · exact no_set_call_node_name _ _ _ _ _ hp

theorem no_set_call_show_nodes_rows (hdr : Headers) (env : Env) (fmt : nodeid_format_t)
    (nf : name_format_t) : ∀ (ns : List Nat) (s : State), no_set_call s.trace →
    no_set_call (show_nodes_rows hdr env fmt nf ns s).trace := by
  intro ns
  induction ns with
  | nil => intro s h; exact h
  | cons n ns ih =>
    intro s h
    exact ih _ (no_set_call_show_nodes_row hdr env fmt nf n s h)

theorem no_set_call_show_nodes (hdr : Headers) (env : Env) (fuel : Nat)
    (fmt : nodeid_format_t) (nf : name_format_t) (s : State) (r : Int × State)
    (hs : no_set_call s.trace) (h : show_nodes hdr env fuel fmt nf s = some r) :
    no_set_call r.2.trace := by
  simp only [show_nodes] at h
  split_ifs at h with h1
  · simp only [Option.some.injEq] at h
    rw [← h]
    simp [eprintf_trace, no_set_call_log, hs, Call.sets_votes]
  · split at h
    · simp at h
    · rename_i w hw
      have hw2 := no_set_call_show_nodes_wait hdr env fuel _ w
        (by simp [no_set_call_log, hs, Call.sets_votes]) hw
      split_ifs at h with h2 h3
      · simp only [Option.some.injEq] at h
        rw [← h]
        simp [eprintf_trace, no_set_call_log, hw2, Call.sets_votes]
      · simp only [Option.some.injEq] at h
        rw [← h]
        apply no_set_call_show_nodes_rows
        simp [printf_trace, no_set_call_log, hw2, Call.sets_votes]
      · simp only [Option.some.injEq] at h
        rw [← h]
        apply no_set_call_show_nodes_rows
        simp [printf_trace, no_set_call_log, hw2, Call.sets_votes]

theorem no_set_call_init_all (hdr : Headers) (env : Env) (s : State)
    (h : no_set_call s.trace) : no_set_call (init_all hdr env s).2.trace := by
  simp only [init_all]
  split_ifs <;>
    simp [eprintf_trace, no_set_call_log, no_set_call_using_votequorum, h, Call.sets_votes]

theorem no_set_step_main_option (hdr : Headers) (env : Env)
    (hu : ∀ s, (using_votequorum hdr env s).1 ≤ 0) (o : Char × String) (l : Locals)
    (s : State) (h : no_set_call s.trace) :
    no_set_step l (main_option hdr env o.1 o.2 l s) := by
  by_cases hc : o.1 = 'v' ∨ o.1 = 'e'
  · rw [main_option_refused hdr env o.1 o.2 l s hc (hu s)]
    simp [no_set_step, eprintf_trace, no_set_call_using_votequorum, h]
  · have ho : o.1 ≠ 'v' ∧ o.1 ≠ 'e' := ⟨fun x => hc (Or.inl x), fun x => hc (Or.inr x)⟩
    simp only [main_option, ho.1, ho.2, if_false]
    split_ifs <;> simp_all [no_set_step, eprintf_trace]

theorem no_set_step_main_options (hdr : Headers) (env : Env)
    (hu : ∀ s, (using_votequorum hdr env s).1 ≤ 0) (opts : List (Char × String)) :
    ∀ (l : Locals) (s : State), no_set_call s.trace →
      no_set_step l (main_options hdr env opts l s) := by
  induction opts with
  | nil => intro l s h; simp [main_options, no_set_step, h]
  | cons o os ih =>
    intro l s h
    have h1 := no_set_step_main_option hdr env hu o l s h
    simp only [main_options]
    cases hm : main_option hdr env o.1 o.2 l s with
    | next l1 s1 =>
      rw [hm] at h1
      have h2 := ih l1 s1 h1.2
      simp only
      cases hn : main_options hdr env os l1 s1 with
      | next l2 s2 =>
        rw [hn] at h2
        exact ⟨fun hl => h2.1 (h1.1 hl), h2.2⟩
      | exit code s2 =>
        rw [hn] at h2
        exact h2
    | exit code s1 =>
      rw [hm] at h1
      exact h1

/-- With `CS_OK` different from 0, `main` never calls `votequorum_setvotes` or
`votequorum_setexpected`, whatever the command line and the daemon. -/
theorem main_no_set_call (hdr : Headers) (env : Env) (hOK : hdr.CS_OK ≠ 0) (fuel argc : Nat)
    (argv0 : String) (opts : List (Char × String)) (r : Int × State)
    (h : main hdr env fuel argc argv0 opts = some r) : no_set_call r.2.trace := by
  have hu : ∀ s, (using_votequorum hdr env s).1 ≤ 0 :=
    fun s => using_votequorum_le_zero hdr env s hOK
  have h0 : no_set_call ({} : State).trace := by simp [no_set_call]
  have hi := no_set_call_init_all hdr env {} h0
  simp only [main] at h
  split_ifs at h with h1 h2
  · simp only [Option.some.injEq] at h
    rw [← h]; simpa [show_usage_trace] using h0
  · simp only [Option.some.injEq] at h
    rw [← h]; exact no_set_call_close_all _ hi
  · have hs := no_set_step_main_options hdr env hu opts (main_locals hdr) _ hi
    cases hm : main_options hdr env opts (main_locals hdr) (init_all hdr env {}).2 with
    | exit code s1 =>
      rw [hm] at hs h
      simp only [Option.some.injEq] at h
      rw [← h]; exact hs
    | next l1 s1 =>
      rw [hm] at hs h
      have hl := hs.1 (by simp [main_locals])
      simp only at h
      cases hcmd : l1.command_opt with
      | CMD_UNKNOWN =>
        rw [hcmd] at h
        simp only [Option.some.injEq] at h
        rw [← h]
        exact no_set_call_close_all _ (by rw [show_usage_trace]; exact hs.2)
      | CMD_SHOWNODES =>
        rw [hcmd] at h
        simp only [Option.map_eq_some'] at h
        obtain ⟨a, ha, rfl⟩ := h
        exact no_set_call_close_all _ (no_set_call_show_nodes _ _ _ _ _ _ a hs.2 ha)
      | CMD_SHOWSTATUS =>
        rw [hcmd] at h
        simp only [Option.map_eq_some'] at h
        obtain ⟨a, ha, rfl⟩ := h
        exact no_set_call_close_all _ (no_set_call_show_status _ _ _ _ a hs.2 ha)
      | CMD_SETVOTES => exact absurd hcmd hl.1
      | CMD_SETEXPECTED => exact absurd hcmd hl.2

/-! # The claims -/

/-! ## Claims about the wait loops -/

/-- C9, as amended.  Let the `N`-th `quorum_dispatch` call (`N ≥ 1`) made from
state `s` (where `g_called = 0`, as both functions set it before their loop) be
the first during which the library invokes `quorum_notification_fn`, with view
`v`, and let the loop condition be evaluated at least `N + 1` times.

* The loop of `show_nodes` makes exactly `N` dispatch calls and is left with
  `g_called = 1` and `g_ring_id`, `g_view_list_entries`, `g_view_list` taken
  from `v`, whatever the calls return.
* The loop of `show_status` does the same provided the first `N - 1` dispatch
  calls return `CS_OK`.
* If instead the `(k+1)`-th call, `k + 1 < N`, is the first that returns
  another status, the loop of `show_status` is left after exactly `k + 1`
  calls with `g_called = 0`: no view has been recorded.
* If no dispatch call ever invokes the callback, the loop of `show_nodes` is
  never left, and the loop of `show_status` is never left as long as every
  dispatch call returns `CS_OK`. -/
theorem wait_loops_dispatch_until_view
    (hdr : Headers) (env : Env) (v : Notification) (N fuel : Nat) (s : State)
    (hN : 1 ≤ N) (hfuel : N + 1 ≤ fuel) (hcalled : s.g_called = 0)
    (hfirst : ∀ j, j + 1 < N → (env.resp (s.trace.length + j)).notif = none)
    (hview : (env.resp (s.trace.length + (N - 1))).notif = some v) :
    (∃ s1, show_nodes_wait hdr env fuel s = some s1 ∧
      s1.trace = s.trace ++ List.replicate N (.quorum_dispatch s.q_handle hdr.CS_DISPATCH_ONE) ∧
      s1.g_called = 1 ∧ s1.g_ring_id = v.ring_id ∧
      s1.g_view_list_entries = v.view_list.length ∧ s1.g_view_list = v.view_list) ∧
    ((∀ j, j + 1 < N → (env.resp (s.trace.length + j)).status = hdr.CS_OK) →
      ∃ r, show_status_wait hdr env fuel hdr.CS_OK s = some r ∧
        r.2.trace = s.trace ++ List.replicate N (.quorum_dispatch s.q_handle hdr.CS_DISPATCH_ONE) ∧
        r.2.g_called = 1 ∧ r.2.g_ring_id = v.ring_id ∧
        r.2.g_view_list_entries = v.view_list.length ∧ r.2.g_view_list = v.view_list) ∧
    (∀ k, k + 1 < N → (∀ j < k, (env.resp (s.trace.length + j)).status = hdr.CS_OK) →
      (env.resp (s.trace.length + k)).status ≠ hdr.CS_OK →
      ∃ r, show_status_wait hdr env fuel hdr.CS_OK s = some r ∧
        r.2.trace = s.trace ++
          List.replicate (k + 1) (.quorum_dispatch s.q_handle hdr.CS_DISPATCH_ONE) ∧
        r.2.g_called = 0) ∧
    (∀ env0 : Env, (∀ j, (env0.resp (s.trace.length + j)).notif = none) →
      (∀ fuel0, show_nodes_wait hdr env0 fuel0 s = none) ∧
      ((∀ j, (env0.resp (s.trace.length + j)).status = hdr.CS_OK) →
        ∀ fuel0, show_status_wait hdr env0 fuel0 hdr.CS_OK s = none)) := by
  obtain ⟨n, rfl⟩ : ∃ n, N = n + 1 := ⟨N - 1, by omega⟩
  simp only [Nat.add_sub_cancel] at hview
  have hfirst2 : ∀ j < n, (env.resp (s.trace.length + j)).notif = none :=
    fun j hj => hfirst j (by omega)
  refine ⟨?_, ?_, ?_, ?_⟩
  · refine ⟨_, show_nodes_wait_delivered hdr env v n fuel s hcalled hfirst2 hview (by omega), ?_⟩
    simp [quorum_notification_fn]
  · intro hs
    refine ⟨_, show_status_wait_delivered hdr env v n fuel s hcalled hfirst2
      (fun j hj => hs j (by omega)) hview (by omega), ?_⟩
    simp only [show_status_wait_result]
    split_ifs <;> simp [quorum_notification_fn, eprintf]
  · intro k hk hs hfail
    refine ⟨_, show_status_wait_failed hdr env k fuel s hcalled
      (fun j hj => hfirst j (by omega)) hs hfail (by omega), ?_⟩
    simp [eprintf, hcalled]
  · intro env0 hnone
    exact ⟨fun fuel0 => show_nodes_wait_never hdr env0 fuel0 s hcalled hnone,
      fun hs fuel0 => show_status_wait_never hdr env0 fuel0 s hcalled hnone hs⟩

/-- Witness for C9: in `callFailsEnv 2` the fourth dispatch call from the
initial state is the first that delivers a view. -/
theorem wait_loops_dispatch_until_view_witness :
    (∃ s1, show_nodes_wait corosyncHeaders (callFailsEnv 2) 5 {} = some s1 ∧
      s1.trace = ([] : List Call) ++ List.replicate 4 (.quorum_dispatch 0 1) ∧
      s1.g_called = 1 ∧ s1.g_ring_id = 44 ∧
      s1.g_view_list_entries = 2 ∧ s1.g_view_list = [1, 2]) :=
  (wait_loops_dispatch_until_view corosyncHeaders (callFailsEnv 2)
    { quorate := 1, ring_id := 44, view_list := [1, 2] } 4 5 {} (by decide) (by decide) rfl
    (fun j hj => by
      have : j = 0 ∨ j = 1 ∨ j = 2 := by omega
      rcases this with rfl | rfl | rfl <;> rfl) rfl).1

/-- Counterexample to C9 as stated.  In `callFailsEnv 2`, after
`quorum_getquorate` and `quorum_trackstart`, the first dispatch call returns
`CS_ERR_LIBRARY` without invoking the callback and the second one would
deliver a view (`N = 2`); the loop of `show_status` makes one dispatch call
only and is left with `g_called = 0`, and `show_status` goes on to return. -/
theorem show_status_wait_leaves_on_failed_dispatch :
    ((callFailsEnv 2).resp 2).notif = none ∧
    ((callFailsEnv 2).resp 3).notif = some { quorate := 1, ring_id := 44, view_list := [1, 2] } ∧
    Option.map (fun r => (r.2.trace.filter Call.is_dispatch, r.2.g_called))
      (show_status_wait corosyncHeaders (callFailsEnv 2) 5 1
        { q_handle := 7, trace := [.quorum_getquorate 7, .quorum_trackstart 7 1] }) =
      some ([.quorum_dispatch 7 1], 0) ∧
    Option.map (fun r => (r.1, r.2.trace.filter Call.is_dispatch, r.2.g_called))
      (show_status corosyncHeaders (callFailsEnv 2) 5 { q_handle := 7 }) =
      some (1, [.quorum_dispatch 7 1], 0) := by
  refine ⟨by decide, by decide, by decide, by decide⟩

/-! ## Claims about `main` -/

/-- C1.  Let `init_all` succeed and let `using_votequorum()` not return a
positive value in this run (with `CS_OK` different from 0 that is so in every
run, see `using_votequorum_le_zero`).  When the option loop of `main`, having
handled the options `pre`, reaches a `-v` or `-e` option in state `σ`, the
process ends with `exit(2)` at that option, in the state `st`:

* `st` is `σ` after the configuration-store lookup of `using_votequorum` and
  one more message on stderr, the refusal; no "not valid" message is written
  for the option;
* `st` and the exit status are the same for every `optarg` of the option and
  every sequence `post` of options after it, so the numeric value is not read;
* the trace of `st`, which holds every library call of the run, holds no call
  on the vote channel. -/
theorem main_refuses_vote_option_without_votequorum
    (hdr : Headers) (env : Env) (argc : Nat) (argv0 : String)
    (pre : List (Char × String)) (c : Char) (l : Locals) (σ : State)
    (hargc : argc ≠ 1)
    (hinit : (init_all hdr env {}).1 = 0)
    (hu : ∀ s, (using_votequorum hdr env s).1 ≤ 0)
    (hreach : main_options hdr env pre (main_locals hdr) (init_all hdr env {}).2 = .next l σ)
    (hc : c = 'v' ∨ c = 'e') :
    ∃ st,
      st = eprintf (not_using_votequorum_message c) (using_votequorum hdr env σ).2 ∧
      (∀ fuel optarg post,
        main hdr env fuel argc argv0 (pre ++ (c, optarg) :: post) = some (2, st)) ∧
      st.err = σ.err ++ [not_using_votequorum_message c] ∧
      st.out = σ.out ∧
      (∀ x ∈ st.trace, x.is_votequorum = false) := by
  obtain ⟨l1, σ1, st, h1, h2, h3, h4, h5, h6⟩ :=
    main_exits_at_first_vote_option hdr env argc argv0 pre c hargc hinit hu
      (main_options_next_other hdr env hu pre _ _ _ _ hreach) hc
  rw [hreach] at h1
  injection h1 with hl hσ
  subst hl hσ
  exact ⟨st, h2, h3, h4, h5, h6⟩

/-- Witness for C1: `-n 5 -H -v <optarg>` against a daemon whose store names
another quorum provider. -/
theorem main_refuses_vote_option_without_votequorum_witness :
    (init_all corosyncHeaders otherProviderEnv {}).1 = 0 ∧
    (∀ s, (using_votequorum corosyncHeaders otherProviderEnv s).1 ≤ 0) ∧
    ∃ st,
      st = eprintf (not_using_votequorum_message 'v')
        (using_votequorum corosyncHeaders otherProviderEnv
          (init_all corosyncHeaders otherProviderEnv {}).2).2 ∧
      (∀ fuel optarg post,
        main corosyncHeaders otherProviderEnv fuel 4 "corosync-quorumtool"
          ([('n', "5"), ('H', "")] ++ ('v', optarg) :: post) = some (2, st)) ∧
      st.err = (init_all corosyncHeaders otherProviderEnv {}).2.err ++
        [not_using_votequorum_message 'v'] ∧
      st.out = (init_all corosyncHeaders otherProviderEnv {}).2.out ∧
      (∀ x ∈ st.trace, x.is_votequorum = false) :=
  ⟨by decide, fun s => using_votequorum_le_zero _ _ s (by decide),
    main_refuses_vote_option_without_votequorum corosyncHeaders otherProviderEnv 4
      "corosync-quorumtool" [('n', "5"), ('H', "")] 'v'
      { main_locals corosyncHeaders with nodeid := 5, nodeid_format := NODEID_FORMAT_HEX }
      (init_all corosyncHeaders otherProviderEnv {}).2 (by decide) (by decide)
      (fun s => using_votequorum_le_zero _ _ s (by decide)) (by decide) (Or.inl rfl)⟩

/-- C3, evaluated (the code does not do what the claim says).  The daemon of
`votequorumEnv` answers every call with `CS_OK` and its store holds
`quorum.provider = corosync_votequorum`.  On `-v 5`, on `-n 3 -v 5` and on
`-e 3` `main` makes no call on the vote channel: `using_votequorum` returns
`-1`, and the process ends with `exit(2)` and the message that corosync is
not using votequorum. -/
theorem main_set_votes_exits_2 :
    (∀ k, (votequorumEnv.resp k).status = corosyncHeaders.CS_OK) ∧
    (∀ k, (votequorumEnv.resp k).value = "corosync_votequorum") ∧
    votequorumEnv.strtol "5" = (5, false) ∧ votequorumEnv.strtol "3" = (3, false) ∧
    Option.map (fun r => (r.1, r.2.trace.filter Call.is_votequorum, r.2.err))
      (main corosyncHeaders votequorumEnv 0 3 "corosync-quorumtool" [('v', "5")]) =
      some (2, [], ["You cannot change node votes, corosync is not using votequorum\n"]) ∧
    Option.map (fun r => (r.1, r.2.trace.filter Call.is_votequorum, r.2.err))
      (main corosyncHeaders votequorumEnv 0 5 "corosync-quorumtool"
        [('n', "3"), ('v', "5")]) =
      some (2, [], ["You cannot change node votes, corosync is not using votequorum\n"]) ∧
    Option.map (fun r => (r.1, r.2.trace.filter Call.is_votequorum, r.2.err))
      (main corosyncHeaders votequorumEnv 0 3 "corosync-quorumtool" [('e', "3")]) =
      some (2, [], ["You cannot change expected votes, corosync is not using votequorum\n"]) := by
  refine ⟨fun k => rfl, fun k => rfl, by decide, by decide, by decide, by decide, by decide⟩

/-- C10, evaluated (the code does not do what the claim says).  Against the
daemon of `votequorumEnv`, which answers every call with `CS_OK` and hands out
handle `100 + k` at call `k`:

* on `-e 3` the process ends with `exit(2)` after three successful initialize
  calls and no finalize call;
* on `-l` the cfg session opened by `init_all` (handle 102) is overwritten by
  the `corosync_cfg_initialize` of `show_nodes` (handle 109); `close_all`
  finalizes 109 only, and 102 is never finalized. -/
theorem main_leaves_handles_open :
    Option.map (fun r => (r.1, r.2.trace.filter Call.opens_session,
        r.2.trace.filter Call.closes_session))
      (main corosyncHeaders votequorumEnv 0 3 "corosync-quorumtool" [('e', "3")]) =
      some (2, [ Call.confdb_initialize, Call.quorum_initialize,
        Call.corosync_cfg_initialize], []) ∧
    (init_all corosyncHeaders votequorumEnv {}).2.c_handle = 102 ∧
    Option.map (fun r => (r.1, r.2.trace.filter (fun c => c.opens_session || c.closes_session)))
      (main corosyncHeaders votequorumEnv 2 2 "corosync-quorumtool" [('l', "")]) =
      some (0, [ Call.confdb_initialize, Call.quorum_initialize, Call.corosync_cfg_initialize,
        .quorum_finalize 101, Call.corosync_cfg_initialize, .confdb_finalize 100,
        .corosync_cfg_finalize 109]) := by
  refine ⟨by decide, by decide, by decide⟩

/-! ## Claims about provider discovery -/

/-- C6, evaluated (the code does not do what the claim says).  Against the
daemon of `votequorumEnv` every call of the lookup returns `CS_OK` and the
stored value is exactly `corosync_votequorum`; `get_quorum_type` copies that
value and returns `CS_OK`, which is 1, and `using_votequorum` takes the
non-zero result for a failure and returns `-1`. -/
theorem using_votequorum_votequorum_store_not_configured :
    (∀ k, (votequorumEnv.resp k).status = corosyncHeaders.CS_OK) ∧
    (∀ k, (votequorumEnv.resp k).value = "corosync_votequorum") ∧
    (get_quorum_type corosyncHeaders votequorumEnv 256 {}).1 = (1, "corosync_votequorum") ∧
    (using_votequorum corosyncHeaders votequorumEnv {}).1 = -1 := by
  refine ⟨fun k => rfl, fun k => rfl, by decide, by decide⟩

/-! ## Claims about `show_status` -/

/-- C5, evaluated (the code does not do what the claim says).  `show_status`
is run with `quorum_getquorate` (call 0), `quorum_trackstart` (call 1) or the
first `quorum_dispatch` (call 2) returning `CS_ERR_LIBRARY = 2`.  In each run
it reports the failure on stderr, goes on past the test `err < 0`, prints the
report with a Quorate line, and returns 1, the content of `is_quorate`, not a
negative value.  In the first run `is_quorate` was not obtained from the
daemon. -/
theorem show_status_failure_returns_quorate :
    ((callFailsEnv 0).resp 0).status = 2 ∧
    Option.map (fun r => (r.1, r.2.trace.take 1, r.2.err, r.2.out))
      (show_status corosyncHeaders (callFailsEnv 0) 0 { q_handle := 7 }) =
      some (1, [.quorum_getquorate 7], ["quorum_getquorate FAILED: 2\n"],
        ["Version:          1.99.0\n", "Nodes:            0\n", "Ring ID:          0\n",
         "Quorum type:      Not configured\n", "Quorate:          Yes\n"]) ∧
    Option.map (fun r => (r.1, r.2.trace.take 2, r.2.err))
      (show_status corosyncHeaders (callFailsEnv 1) 0 { q_handle := 7 }) =
      some (1, [.quorum_getquorate 7, .quorum_trackstart 7 1],
        ["quorum_trackstart FAILED: 2\n"]) ∧
    Option.map (fun r => (r.1, r.2.trace.take 4, r.2.err))
      (show_status corosyncHeaders (callFailsEnv 2) 2 { q_handle := 7 }) =
      some (1, [.quorum_getquorate 7, .quorum_trackstart 7 1, .quorum_dispatch 7 1,
        .quorum_trackstop 7], ["quorum_dispatch FAILED: 2\n"]) := by
  refine ⟨by decide, by decide, by decide, by decide⟩

theorem set_notif_quorate_status (q : Nat → Nat) (env : Env) (k : Nat) :
    ((set_notif_quorate q env).resp k).status = (env.resp k).status := rfl

/-- C4.  Let every daemon call return `CS_OK` (a non-negative constant) and
let the `N`-th dispatch call of `show_status` be the first during which the
view `v` is delivered.  Then `show_status` returns the value that
`quorum_getquorate` stored, and it prints the report `status_report`, whose
fifth line is the Quorate line: it says Yes exactly when that value is not
zero.  Neither depends on the quorate argument of the notification: in the
environment `set_notif_quorate q env`, which differs from `env` in that
argument only, `show_status` returns the same value and writes the same text
to stdout and stderr. -/
theorem show_status_reports_getquorate
    (hdr : Headers) (env : Env) (v : Notification) (N fuel : Nat) (s : State) (q : Nat → Nat)
    (h0 : 0 ≤ hdr.CS_OK)
    (hall : ∀ k, (env.resp k).status = hdr.CS_OK)
    (hN : 1 ≤ N) (hfuel : N + 1 ≤ fuel)
    (hnone : ∀ j, j + 1 < N → (env.resp (s.trace.length + 2 + j)).notif = none)
    (hview : (env.resp (s.trace.length + 2 + (N - 1))).notif = some v) :
    ∃ st st',
      show_status hdr env fuel s = some ((env.resp s.trace.length).quorate, st) ∧
      show_status hdr (set_notif_quorate q env) fuel s =
        some ((env.resp s.trace.length).quorate, st') ∧
      st.out = s.out ++ status_report hdr (env.resp s.trace.length).quorate
        v.view_list.length v.ring_id (env.resp (s.trace.length + N + 8)).value s.v_handle
        (env.resp (s.trace.length + N + 9)).info ∧
      st'.out = st.out ∧ st'.err = st.err := by
  obtain ⟨n, rfl⟩ : ∃ n, N = n + 1 := ⟨N - 1, by omega⟩
  simp only [Nat.add_sub_cancel] at hview
  obtain ⟨st, h1, h2, h3⟩ := show_status_ok hdr env v n fuel s h0 hall
    (fun j hj => hnone j (by omega)) hview (by omega)
  obtain ⟨st', h1', h2', h3'⟩ := show_status_ok hdr (set_notif_quorate q env)
    { v with quorate := q (s.trace.length + 2 + n) } n fuel s h0
    (fun k => by rw [set_notif_quorate_status]; exact hall k)
    (fun j hj => by simp [set_notif_quorate, hnone j (by omega)])
    (by simp [set_notif_quorate, hview]) (by omega)
  refine ⟨st, st', h1, h1', ?_, ?_, ?_⟩
  · rw [h2]; rfl
  · rw [h2, h2']; rfl
  · rw [h3, h3']


/-- Witness for C4: the daemon of `votequorumEnv`, which delivers the view
during the first dispatch call. -/
theorem show_status_reports_getquorate_witness :
    ∃ st st',
      show_status corosyncHeaders votequorumEnv 2 { q_handle := 101 } = some (1, st) ∧
      show_status corosyncHeaders (set_notif_quorate (fun _ => 0) votequorumEnv) 2
        { q_handle := 101 } = some (1, st') ∧
      st.out = [] ++ status_report corosyncHeaders 1 2 44 "corosync_votequorum" 0
        (votequorumEnv.resp 10).info ∧
      st'.out = st.out ∧ st'.err = st.err :=
  show_status_reports_getquorate corosyncHeaders votequorumEnv
    { quorate := 1, ring_id := 44, view_list := [1, 2] } 1 2 { q_handle := 101 } (fun _ => 0)
    (by decide) (fun _ => rfl) (by decide) (by decide) (fun j hj => absurd hj (by omega)) rfl

/-! ## Claims about `show_nodes` -/

/-- C7.  Let `quorum_trackstart` succeed, let the `N`-th dispatch call of
`show_nodes` be the first during which a view is delivered, with member list
`v.view_list`, and let `corosync_cfg_initialize` succeed; that is call number
`s.trace.length + N + 2` of the run, and the rows start at the next call.
Then `show_nodes` returns `EXIT_SUCCESS`, and with `rows` the list
`expected_rows` for the members, read off the answers of the daemon,

* `rows` has the node ids `v.view_list`, in the order delivered, so there are
  exactly as many rows as members;
* the output is the header row followed by the text `row_text` of every row of
  `rows` in order: the node id in its column, with a vote channel the votes in
  theirs, the name, a newline;
* the library calls of the run after `corosync_cfg_initialize` are exactly the
  calls `expected_rows_calls`: every row makes its own vote query (with a vote
  channel) and its own name lookup, and the votes and the name of the row are
  the answers to these very calls;
* a row whose vote query fails has the votes `-1`, printed as ` -1`; a row
  whose address query or name resolution fails has the empty name.

Nothing is assumed about the answers to the queries, so this holds whatever
the queries of the other rows return: a failure changes the one field of the
one row and no row after it. -/
theorem show_nodes_prints_view_in_order
    (hdr : Headers) (env : Env) (v : Notification) (N fuel : Nat) (fmt : nodeid_format_t)
    (nf : name_format_t) (s : State)
    (hN : 1 ≤ N) (hfuel : N + 1 ≤ fuel)
    (htrack : (env.resp s.trace.length).status = hdr.CS_OK)
    (hnone : ∀ j, j + 1 < N → (env.resp (s.trace.length + 1 + j)).notif = none)
    (hview : (env.resp (s.trace.length + 1 + (N - 1))).notif = some v)
    (hcfg : (env.resp (s.trace.length + N + 2)).status = hdr.CS_OK) :
    ∃ (st : State) (rows : List RowData),
      show_nodes hdr env fuel fmt nf s = some (EXIT_SUCCESS, st) ∧
      rows = expected_rows hdr env s.v_handle (env.resp (s.trace.length + N + 2)).handle nf
        (s.trace.length + N + 3) v.view_list ∧
      rows.map RowData.nodeid = v.view_list ∧
      st.out = s.out ++
        (if s.v_handle ≠ 0 then "Nodeid     Votes  Name\n" else "Nodeid     Name\n") ::
          rows.flatMap (row_text fmt (decide (s.v_handle ≠ 0))) ∧
      st.trace = s.trace ++ .quorum_trackstart s.q_handle hdr.CS_TRACK_CURRENT ::
        (List.replicate N (.quorum_dispatch s.q_handle hdr.CS_DISPATCH_ONE) ++
          [.quorum_finalize s.q_handle, Call.corosync_cfg_initialize]) ++
        expected_rows_calls hdr env s.v_handle (env.resp (s.trace.length + N + 2)).handle nf
          (s.trace.length + N + 3) v.view_list ∧
      (∀ k, (env.resp k).status ≠ hdr.CS_OK → expected_votes hdr env k = -1) ∧
      (∀ k, (env.resp k).status ≠ hdr.CS_OK ∨ (env.resp (k + 1)).status ≠ 0 →
        expected_name hdr env k = "") ∧
      (∀ n name, row_text NODEID_FORMAT_DECIMAL true { nodeid := n, votes := -1, name := name } =
        [String.mk (List.replicate (4 - (Nat.toDigits 10 n).length) ' ' ++ Nat.toDigits 10 n)
          ++ "   ", " -1  " ++ name ++ "\n"]) := by
  obtain ⟨n, rfl⟩ : ∃ n, N = n + 1 := ⟨N - 1, by omega⟩
  simp only [Nat.add_sub_cancel] at hview
  have hlen : (show_nodes_loop_entry hdr env v n s).trace.length = s.trace.length + (n + 1) + 3 := by
    simp [show_nodes_loop_entry]; omega
  have hch : (show_nodes_loop_entry hdr env v n s).c_handle =
      (env.resp (s.trace.length + (n + 1) + 2)).handle := rfl
  have hvh : (show_nodes_loop_entry hdr env v n s).v_handle = s.v_handle := rfl
  refine ⟨_, _, show_nodes_eq hdr env v n fuel fmt nf s (by omega) htrack
    (fun j hj => hnone j (by omega)) hview hcfg, rfl, expected_rows_nodeid _ _ _ _ _ _ _, ?_, ?_,
    ?_, ?_, ?_⟩
  · rw [show_nodes_rows_eq, hlen, hch, hvh]
    simp [show_nodes_loop_entry]
  · rw [show_nodes_rows_eq, hlen, hch, hvh]
    simp [show_nodes_loop_entry]
  · intro k hk
    simp [expected_votes, hk]
  · intro k hk
    simp only [expected_name]
    rw [if_neg]
    rintro ⟨h1, h2⟩
    rcases hk with hk | hk
    · exact hk h1
    · exact hk h2
  · intro n name
    have h : int_digits (-1) = ['-', '1'] := by decide
    simp only [row_text, h]
    rfl

/-- Witness for C7: `mixedRowsEnv` delivers the view `[1, 2, 3]` at the first
dispatch, with a vote channel.  Row 1 shows its votes and the resolved name;
row 2, whose vote query and address query fail, shows `-1` and no name; row 3,
whose name resolution fails, shows its votes and no name. -/
theorem show_nodes_prints_view_in_order_witness :
    (∃ (st : State) (rows : List RowData),
      show_nodes corosyncHeaders mixedRowsEnv 2 NODEID_FORMAT_DECIMAL ADDRESS_FORMAT_NAME
        { q_handle := 101, v_handle := 106, c_handle := 102 } = some (EXIT_SUCCESS, st) ∧
      rows = expected_rows corosyncHeaders mixedRowsEnv 106 103 ADDRESS_FORMAT_NAME 4 [1, 2, 3] ∧
      rows.map RowData.nodeid = [1, 2, 3] ∧
      st.out = [] ++ "Nodeid     Votes  Name\n" ::
          rows.flatMap (row_text NODEID_FORMAT_DECIMAL true) ∧
      st.trace = [] ++ .quorum_trackstart 101 1 ::
        (List.replicate 1 (.quorum_dispatch 101 1) ++
          [.quorum_finalize 101, Call.corosync_cfg_initialize]) ++
        expected_rows_calls corosyncHeaders mixedRowsEnv 106 103 ADDRESS_FORMAT_NAME 4
          [1, 2, 3] ∧
      (∀ k, (mixedRowsEnv.resp k).status ≠ 1 → expected_votes corosyncHeaders mixedRowsEnv k = -1) ∧
      (∀ k, (mixedRowsEnv.resp k).status ≠ 1 ∨ (mixedRowsEnv.resp (k + 1)).status ≠ 0 →
        expected_name corosyncHeaders mixedRowsEnv k = "") ∧
      (∀ n name, row_text NODEID_FORMAT_DECIMAL true { nodeid := n, votes := -1, name := name } =
        [String.mk (List.replicate (4 - (Nat.toDigits 10 n).length) ' ' ++ Nat.toDigits 10 n)
          ++ "   ", " -1  " ++ name ++ "\n"])) ∧
    Option.map (fun r => (r.1, r.2.out))
      (show_nodes corosyncHeaders mixedRowsEnv 2 NODEID_FORMAT_DECIMAL ADDRESS_FORMAT_NAME
        { q_handle := 101, v_handle := 106, c_handle := 102 }) =
      some (0, ["Nodeid     Votes  Name\n", "   1   ", "  4  node1\n", "   2   ", " -1  \n",
        "   3   ", "  9  \n"]) ∧
    Option.map (fun r => r.2.trace.drop 4)
      (show_nodes corosyncHeaders mixedRowsEnv 2 NODEID_FORMAT_DECIMAL ADDRESS_FORMAT_NAME
        { q_handle := 101, v_handle := 106, c_handle := 102 }) =
      some [.votequorum_getinfo 106 1, .corosync_cfg_get_node_addrs 103 1 2,
        .getnameinfo { ss_family := 2, bytes := 5 } 16 0,
        .votequorum_getinfo 106 2, .corosync_cfg_get_node_addrs 103 2 2,
        .votequorum_getinfo 106 3, .corosync_cfg_get_node_addrs 103 3 2,
        .getnameinfo { ss_family := 2, bytes := 10 } 16 0] :=
  ⟨show_nodes_prints_view_in_order corosyncHeaders mixedRowsEnv
    { quorate := 1, ring_id := 44, view_list := [1, 2, 3] } 1 2 NODEID_FORMAT_DECIMAL
    ADDRESS_FORMAT_NAME { q_handle := 101, v_handle := 106, c_handle := 102 }
    (by decide) (by decide) rfl (fun j hj => absurd hj (by omega)) rfl rfl,
   by decide, by decide⟩


/-- C8.  For every node id `n`, the node-id field that `show_nodes` prints
(followed by the three blanks that separate it from the next column) is

* in decimal format the decimal digits of `n`, padded on the left with blanks
  when they are fewer than 4 and never cut;
* in hexadecimal format `0x` and the lowercase hexadecimal digits of `n`,
  padded on the left with zeros when they are fewer than 4 and never cut.

The digits are those of `n`: they are digits of the base and read back as `n`.
Node id 255 is rendered as ` 255` and as `0x00ff`, and both renderings are
injective. -/
theorem nodeid_field_rendering (n : Nat) :
    nodeid_field NODEID_FORMAT_DECIMAL n =
      String.mk (List.replicate (4 - (Nat.toDigits 10 n).length) ' ' ++ Nat.toDigits 10 n)
        ++ "   " ∧
    nodeid_field NODEID_FORMAT_HEX n =
      "0x" ++ String.mk (List.replicate (4 - (Nat.toDigits 16 n).length) '0' ++
        Nat.toDigits 16 n) ++ "   " ∧
    (Nat.toDigits 10 n ≠ [] ∧ (∀ c ∈ Nat.toDigits 10 n, digit_value c < 10) ∧
      read_number 10 (Nat.toDigits 10 n) = n) ∧
    (Nat.toDigits 16 n ≠ [] ∧ (∀ c ∈ Nat.toDigits 16 n, digit_value c < 16) ∧
      read_number 16 (Nat.toDigits 16 n) = n) ∧
    nodeid_field NODEID_FORMAT_DECIMAL 255 = " 255" ++ "   " ∧
    nodeid_field NODEID_FORMAT_HEX 255 = "0x00ff" ++ "   " ∧
    (∀ m, nodeid_field NODEID_FORMAT_DECIMAL m = nodeid_field NODEID_FORMAT_DECIMAL n → m = n) ∧
    (∀ m, nodeid_field NODEID_FORMAT_HEX m = nodeid_field NODEID_FORMAT_HEX n → m = n) := by
  refine ⟨rfl, rfl, toDigits_spec 10 (by omega) (by omega) n,
    toDigits_spec 16 (by omega) (by omega) n, by decide, by decide, ?_, ?_⟩
  · intro m h
    rw [← read_number_decimal_field m, h, read_number_decimal_field]
  · intro m h
    rw [← read_number_hex_field m, h, read_number_hex_field]


end Quorumtool
